import Mathlib

/-!
Verification of the XenoComm multi-agent coordination engine.

This file gives a shallow embedding, in Lean 4, of the coordination core of
the XenoComm SDK MCP server (`alignment.py`, `negotiation.py`, `emergence.py`,
`orchestrator.py`, `workflows.py`) and proves or refutes the frozen claims
about it.

Modelling conventions:
- Python floats are modelled as exact rationals (`Rat`); every constant that
  appears in the source is exactly representable, and no comparison in any
  proved statement sits on a floating-point boundary.
- Wall-clock time (`datetime.utcnow()`) is modelled by an explicit integer
  parameter `now` threaded through the operations that read the clock.
- Transcendental functions from Python's `math` module (`log`, `sqrt`) are
  modelled as function parameters; every theorem below either holds for all
  interpretations of these parameters or assumes only properties true of the
  real functions (such as `sqrt 0 = 0`).
- Python dicts are modelled as insertion-ordered association lists, Python
  sets as lists considered up to duplication (`List.dedup` supplies the
  cardinalities); all proved statements are insensitive to set iteration
  order.
- Fallible Python code (raised exceptions) returns `Except String α`.
-/

namespace XenoComm

/-! ## Circuit breaker (`emergence.py`, class `CircuitBreaker`) -/

/-- State of the circuit breaker (`CircuitState` in `emergence.py`):
`closed` = normal operation, `open_` = failures detected / blocking,
`half_open` = testing recovery. -/
inductive CircuitState where
  | closed
  | open_
  | half_open
deriving DecidableEq, Repr

/-- The `CircuitBreaker` dataclass.  Timestamps are integers (seconds);
`state_changes` records `(timestamp, new_state)` pairs exactly as
`_transition_to` appends them. -/
structure CircuitBreaker where
  state : CircuitState
  failure_count : Nat
  success_count : Nat
  failure_threshold : Nat
  reset_timeout_seconds : Int
  last_failure_time : Option Int
  consecutive_failures : Nat
  consecutive_successes : Nat
  half_open_success_threshold : Nat
  state_changes : List (Int × CircuitState)
deriving DecidableEq, Repr

/-- A breaker as constructed by `CircuitBreaker()` with the dataclass
defaults, generalised over the three threshold fields. -/
def CircuitBreaker.fresh (ft : Nat) (rts : Int) (host : Nat) : CircuitBreaker :=
  { state := .closed
    failure_count := 0
    success_count := 0
    failure_threshold := ft
    reset_timeout_seconds := rts
    last_failure_time := none
    consecutive_failures := 0
    consecutive_successes := 0
    half_open_success_threshold := host
    state_changes := [] }

/-- The breaker created by `propose_variant` (all dataclass defaults). -/
def CircuitBreaker.default : CircuitBreaker := CircuitBreaker.fresh 5 30 3

/-- `CircuitBreaker._transition_to`: record the transition (timestamped) and
switch state, but only when the state actually changes. -/
def CircuitBreaker.transitionTo (cb : CircuitBreaker) (now : Int)
    (ns : CircuitState) : CircuitBreaker :=
  if cb.state ≠ ns then
    { cb with state_changes := cb.state_changes ++ [(now, ns)], state := ns }
  else cb

/-- `CircuitBreaker.record_success`. -/
def CircuitBreaker.record_success (cb : CircuitBreaker) (now : Int) :
    CircuitBreaker :=
  let cb := { cb with
    success_count := cb.success_count + 1
    consecutive_successes := cb.consecutive_successes + 1
    consecutive_failures := 0 }
  if cb.state = CircuitState.half_open then
    if cb.consecutive_successes ≥ cb.half_open_success_threshold then
      let cb := cb.transitionTo now .closed
      { cb with failure_count := 0, success_count := 0,
                consecutive_successes := 0 }
    else cb
  else cb

/-- `CircuitBreaker.record_failure`. -/
def CircuitBreaker.record_failure (cb : CircuitBreaker) (now : Int) :
    CircuitBreaker :=
  let cb := { cb with
    failure_count := cb.failure_count + 1
    consecutive_failures := cb.consecutive_failures + 1
    consecutive_successes := 0
    last_failure_time := some now }
  let cb := if cb.consecutive_failures ≥ cb.failure_threshold then
    cb.transitionTo now .open_ else cb
  if cb.state = CircuitState.half_open then cb.transitionTo now .open_ else cb

/-- `CircuitBreaker.can_proceed`: returns the answer and the (possibly
updated) breaker, since the open-state branch may transition to half-open
after the reset timeout. -/
def CircuitBreaker.can_proceed (cb : CircuitBreaker) (now : Int) :
    Bool × CircuitBreaker :=
  if cb.state = CircuitState.closed then (true, cb)
  else if cb.state = CircuitState.open_ then
    match cb.last_failure_time with
    | some t =>
        if now - t ≥ cb.reset_timeout_seconds then
          let cb := cb.transitionTo now .half_open
          (true, { cb with consecutive_successes := 0 })
        else (false, cb)
    | none => (false, cb)
  else (true, cb)

/-- `CircuitBreaker.get_flap_count`: state changes inside the time window. -/
def CircuitBreaker.get_flap_count (cb : CircuitBreaker) (now : Int)
    (window_minutes : Int) : Nat :=
  (cb.state_changes.filter (fun p => p.1 > now - window_minutes * 60)).length

/-- `CircuitBreaker.is_flapping` (default threshold 5, window 60 minutes). -/
def CircuitBreaker.is_flapping (cb : CircuitBreaker) (now : Int) : Bool :=
  cb.get_flap_count now 60 ≥ 5

/-- One external call on a breaker: `record_success`, `record_failure` or
`can_proceed`, each carrying the wall-clock instant of the call. -/
inductive BreakerOp where
  | recSuccess (now : Int)
  | recFailure (now : Int)
  | proceed (now : Int)

/-- Apply one call to a breaker. -/
def applyBreakerOp (cb : CircuitBreaker) (op : BreakerOp) : CircuitBreaker :=
  match op with
  | .recSuccess n => cb.record_success n
  | .recFailure n => cb.record_failure n
  | .proceed n => (cb.can_proceed n).2

/-- The recorded state sequence of a breaker: the initial `closed` state
followed by every new state logged in `state_changes`. -/
def CircuitBreaker.recordedStates (cb : CircuitBreaker) : List CircuitState :=
  CircuitState.closed :: cb.state_changes.map Prod.snd

/-- A state sequence has no direct `open → closed` step. -/
def noOpenToClosed (l : List CircuitState) : Prop :=
  List.Chain' (fun a b => ¬(a = CircuitState.open_ ∧ b = CircuitState.closed)) l

/-- Invariant tying the live state to the recorded sequence. -/
def BreakerInv (cb : CircuitBreaker) : Prop :=
  cb.recordedStates.getLast? = some cb.state ∧ noOpenToClosed cb.recordedStates

lemma breakerInv_fresh (ft : Nat) (rts : Int) (host : Nat) :
    BreakerInv (CircuitBreaker.fresh ft rts host) := by
  constructor
  · rfl
  · simp [noOpenToClosed, CircuitBreaker.fresh, CircuitBreaker.recordedStates]

lemma recordedStates_set_state (cb : CircuitBreaker) (ns : CircuitState)
    (sc : List (Int × CircuitState)) :
    CircuitBreaker.recordedStates { cb with state := ns, state_changes := sc }
      = CircuitState.closed :: sc.map Prod.snd := rfl

lemma breakerInv_transitionTo (cb : CircuitBreaker) (now : Int)
    (ns : CircuitState) (h : BreakerInv cb)
    (hok : ¬(cb.state = CircuitState.open_ ∧ ns = CircuitState.closed)) :
    BreakerInv (cb.transitionTo now ns) := by
  unfold CircuitBreaker.transitionTo
  split
  next hne =>
    obtain ⟨hlast, hchain⟩ := h
    have heq : CircuitBreaker.recordedStates
        { cb with state_changes := cb.state_changes ++ [(now, ns)], state := ns }
        = cb.recordedStates ++ [ns] := by
      simp [CircuitBreaker.recordedStates]
    constructor
    · show (CircuitBreaker.recordedStates _).getLast? = some ns
      rw [heq, List.getLast?_concat]
    · show noOpenToClosed (CircuitBreaker.recordedStates _)
      rw [heq]
      unfold noOpenToClosed at hchain ⊢
      rw [List.chain'_append]
      refine ⟨hchain, by simp, ?_⟩
      intro x hx y hy
      simp only [List.head?_cons, Option.mem_def, Option.some.injEq] at hy
      rw [hlast] at hx
      simp only [Option.mem_def, Option.some.injEq] at hx
      subst hx; subst hy
      exact hok
  next hne => exact h

lemma breakerInv_step (cb : CircuitBreaker) (op : BreakerOp)
    (h : BreakerInv cb) : BreakerInv (applyBreakerOp cb op) := by
  cases op with
  | recSuccess n =>
      show BreakerInv (cb.record_success n)
      simp only [CircuitBreaker.record_success]
      split
      next h1 =>
        split
        next h2 =>
          exact breakerInv_transitionTo _ n CircuitState.closed h
            (by rintro ⟨hs, -⟩
                exact CircuitState.noConfusion (h1.symm.trans hs))
        next h2 => exact h
      next h1 => exact h
  | recFailure n =>
      show BreakerInv (cb.record_failure n)
      simp only [CircuitBreaker.record_failure]
      split <;> split <;>
        first
          | exact h
          | exact breakerInv_transitionTo _ n _ h
              (by rintro ⟨-, hc⟩; exact CircuitState.noConfusion hc)
          | exact breakerInv_transitionTo _ n _
              (breakerInv_transitionTo _ n _ h
                (by rintro ⟨-, hc⟩; exact CircuitState.noConfusion hc))
              (by rintro ⟨-, hc⟩; exact CircuitState.noConfusion hc)
  | proceed n =>
      show BreakerInv (cb.can_proceed n).2
      simp only [CircuitBreaker.can_proceed]
      split
      · exact h
      · split
        · split
          · split
            · exact breakerInv_transitionTo _ n CircuitState.half_open h
                (by rintro ⟨-, hc⟩; exact CircuitState.noConfusion hc)
            · exact h
          · exact h
        · exact h

lemma breakerInv_foldl (ops : List BreakerOp) (cb : CircuitBreaker)
    (h : BreakerInv cb) : BreakerInv (ops.foldl applyBreakerOp cb) := by
  induction ops generalizing cb with
  | nil => exact h
  | cons op rest ih => exact ih _ (breakerInv_step cb op h)

/-- Claim C9: for every circuit breaker (any thresholds) and every sequence
of `record_success`, `record_failure` and `can_proceed` calls, the recorded
state sequence contains no direct transition from `open` to `closed`. -/
theorem circuit_breaker_no_open_to_closed (ft : Nat) (rts : Int) (host : Nat)
    (ops : List BreakerOp) :
    noOpenToClosed
      ((ops.foldl applyBreakerOp (CircuitBreaker.fresh ft rts host)).recordedStates) :=
  (breakerInv_foldl ops _ (breakerInv_fresh ft rts host)).2

/-! ## Association lists (Python dicts, insertion-ordered) -/

/-- Dict lookup. -/
def lookupA {α : Type} (m : List (String × α)) (k : String) : Option α :=
  match m with
  | [] => none
  | (k', v) :: rest => if k' = k then some v else lookupA rest k

/-- Dict assignment: replace in place if the key exists, else append. -/
def insertA {α : Type} (m : List (String × α)) (k : String) (v : α) :
    List (String × α) :=
  match m with
  | [] => [(k, v)]
  | (k', v') :: rest =>
      if k' = k then (k', v) :: rest else (k', v') :: insertA rest k v

/-- Dict deletion. -/
def eraseA {α : Type} (m : List (String × α)) (k : String) :
    List (String × α) :=
  match m with
  | [] => []
  | (k', v') :: rest => if k' = k then rest else (k', v') :: eraseA rest k

/-! ## Reducible rational arithmetic

Mathlib's field operations on `ℚ` are whnf-opaque (their normalisation step
does not reduce definitionally), which would make concrete program runs
impossible to settle by `decide`/`rfl`.  The embedding therefore performs
Python's float arithmetic through the following `mkRat`-based wrappers,
which do reduce; the bridge lemmas below identify each wrapper with the
corresponding Mathlib field operation, so symbolic proofs can use ordinary
algebra.  Every constant of the source is exactly representable, and no
comparison in any proved statement sits on a floating-point boundary. -/

/-- Python `+` on floats, as exact rational addition. -/
def pyAdd (a b : ℚ) : ℚ := mkRat (a.num * b.den + b.num * a.den) (a.den * b.den)

/-- Python `-` on floats. -/
def pySub (a b : ℚ) : ℚ := mkRat (a.num * b.den - b.num * a.den) (a.den * b.den)

/-- Python `*` on floats. -/
def pyMul (a b : ℚ) : ℚ := mkRat (a.num * b.num) (a.den * b.den)

/-- Python `/` on floats (the sources always guard division by zero; the
value at zero is irrelevant and is 0 here, matching Mathlib). -/
def pyDiv (a b : ℚ) : ℚ := Rat.divInt (a.num * b.den) (a.den * b.num)

/-- Python unary minus. -/
def pyNeg (a : ℚ) : ℚ := mkRat (-a.num) a.den

/-- Python `<` on floats. -/
def pyLt (a b : ℚ) : Bool := Rat.blt a b

/-- Python `<=` on floats. -/
def pyLe (a b : ℚ) : Bool := !Rat.blt b a

/-- Python `==` on floats. -/
def pyEqQ (a b : ℚ) : Bool := pyLe a b && pyLe b a

/-- Python `sum(...)` over a list of floats. -/
def pySum (l : List ℚ) : ℚ := l.foldl pyAdd 0

/-- Python `x ** 2`. -/
def pyPow2 (x : ℚ) : ℚ := pyMul x x

/-- Python `abs`. -/
def pyAbs (x : ℚ) : ℚ := if pyLt x 0 then pyNeg x else x

/-- Python builtin `min` on two floats. -/
def pyMin (a b : ℚ) : ℚ := if pyLt b a then b else a

lemma pyLt_iff (a b : ℚ) : (pyLt a b = true) ↔ a < b := Eq.to_iff rfl

lemma pyLe_iff (a b : ℚ) : (pyLe a b = true) ↔ a ≤ b := by
  rw [pyLe, Bool.not_eq_true']
  exact Eq.to_iff rfl

lemma pyEqQ_iff (a b : ℚ) : (pyEqQ a b = true) ↔ a = b := by
  rw [pyEqQ, Bool.and_eq_true, pyLe_iff, pyLe_iff]
  exact ⟨fun h => le_antisymm h.1 h.2, fun h => ⟨le_of_eq h, ge_of_eq h⟩⟩

lemma pyAdd_eq (a b : ℚ) : pyAdd a b = a + b := by
  have ha : (a.den : ℚ) ≠ 0 := by exact_mod_cast a.den_nz
  have hb : (b.den : ℚ) ≠ 0 := by exact_mod_cast b.den_nz
  rw [pyAdd, Rat.mkRat_eq_divInt, Rat.divInt_eq_div]
  conv_rhs => rw [← Rat.num_div_den a, ← Rat.num_div_den b]
  rw [div_add_div _ _ ha hb]
  push_cast
  ring_nf

lemma pySub_eq (a b : ℚ) : pySub a b = a - b := by
  have ha : (a.den : ℚ) ≠ 0 := by exact_mod_cast a.den_nz
  have hb : (b.den : ℚ) ≠ 0 := by exact_mod_cast b.den_nz
  rw [pySub, Rat.mkRat_eq_divInt, Rat.divInt_eq_div]
  conv_rhs => rw [← Rat.num_div_den a, ← Rat.num_div_den b]
  rw [div_sub_div _ _ ha hb]
  push_cast
  ring_nf

lemma pyMul_eq (a b : ℚ) : pyMul a b = a * b := by
  have ha : (a.den : ℚ) ≠ 0 := by exact_mod_cast a.den_nz
  have hb : (b.den : ℚ) ≠ 0 := by exact_mod_cast b.den_nz
  rw [pyMul, Rat.mkRat_eq_divInt, Rat.divInt_eq_div]
  conv_rhs => rw [← Rat.num_div_den a, ← Rat.num_div_den b]
  rw [div_mul_div_comm]
  push_cast
  ring_nf

lemma pyDiv_eq (a b : ℚ) : pyDiv a b = a / b := by
  rw [pyDiv, Rat.divInt_eq_div]
  by_cases hb : b.num = 0
  · have hb0 : b = 0 := by rwa [Rat.num_eq_zero] at hb
    simp [hb0, hb]
  · have ha : (a.den : ℚ) ≠ 0 := by exact_mod_cast a.den_nz
    have hbd : (b.den : ℚ) ≠ 0 := by exact_mod_cast b.den_nz
    have hbq : (b.num : ℚ) ≠ 0 := by exact_mod_cast hb
    conv_rhs => rw [← Rat.num_div_den a, ← Rat.num_div_den b]
    push_cast
    field_simp

lemma pyNeg_eq (a : ℚ) : pyNeg a = -a := by
  have ha : (a.den : ℚ) ≠ 0 := by exact_mod_cast a.den_nz
  rw [pyNeg, Rat.mkRat_eq_divInt, Rat.divInt_eq_div]
  conv_rhs => rw [← Rat.num_div_den a]
  push_cast
  ring

lemma pyAbs_eq (x : ℚ) : pyAbs x = |x| := by
  rw [pyAbs]
  by_cases hx : x < 0
  · rw [if_pos ((pyLt_iff x 0).mpr hx), pyNeg_eq, abs_of_neg hx]
  · rw [if_neg (by rw [pyLt_iff]; exact hx), abs_of_nonneg (not_lt.mp hx)]

lemma pyMin_eq (a b : ℚ) : pyMin a b = min a b := by
  rw [pyMin]
  by_cases h : b < a
  · rw [if_pos ((pyLt_iff b a).mpr h), min_eq_right h.le]
  · rw [if_neg (by rw [pyLt_iff]; exact h), min_eq_left (not_lt.mp h)]

lemma pyFoldAdd (l : List ℚ) : ∀ init : ℚ, l.foldl pyAdd init = init + l.sum := by
  induction l with
  | nil => intro init; simp
  | cons x xs ih =>
      intro init
      rw [List.foldl_cons, ih, pyAdd_eq, List.sum_cons]
      ring

lemma pySum_eq (l : List ℚ) : pySum l = l.sum := by
  rw [pySum, pyFoldAdd]
  ring

lemma pyPow2_eq (x : ℚ) : pyPow2 x = x ^ 2 := by
  rw [pyPow2, pyMul_eq, sq]

/-! ## Negotiation engine (`negotiation.py`) -/

/-- `NegotiationState` enum. -/
inductive NegotiationState where
  | idle
  | initiating
  | awaiting_response
  | proposal_received
  | responding
  | counter_received
  | awaiting_finalization
  | finalizing
  | finalized
  | failed
  | closed
  | timed_out
deriving DecidableEq, Repr

/-- `NegotiableParams` dataclass (custom params as a string dict). -/
structure NegotiableParams where
  protocol_version : String
  data_format : String
  compression : Option String
  error_correction : String
  max_message_size : Int
  timeout_ms : Int
  encryption : String
  custom_params : List (String × String)
  streaming_enabled : Bool
  batch_size : Int
  retry_policy : String
  max_retries : Int
  priority : Int
deriving DecidableEq, Repr

/-- The dataclass defaults of `NegotiableParams`. -/
def NegotiableParams.defaults : NegotiableParams :=
  { protocol_version := "2.0"
    data_format := "json"
    compression := none
    error_correction := "checksum"
    max_message_size := 1024 * 1024
    timeout_ms := 30000
    encryption := "tls"
    custom_params := []
    streaming_enabled := false
    batch_size := 1
    retry_policy := "exponential"
    max_retries := 3
    priority := 5 }

/-- `SUPPORTED_DATA_FORMATS`. -/
def SUPPORTED_DATA_FORMATS : List String :=
  ["json", "msgpack", "protobuf", "vector_float32", "vector_int8", "cbor"]

/-- `SUPPORTED_COMPRESSION` (contains Python `None`). -/
def SUPPORTED_COMPRESSION : List (Option String) :=
  [none, some "gzip", some "lz4", some "zstd", some "snappy"]

/-- `SUPPORTED_ENCRYPTION`. -/
def SUPPORTED_ENCRYPTION : List String := ["none", "tls", "aes256", "chacha20"]

/-- `SUPPORTED_ERROR_CORRECTION`. -/
def SUPPORTED_ERROR_CORRECTION : List String :=
  ["none", "checksum", "crc32", "reed_solomon"]

/-- `NegotiableParams.validate`: `(is_valid, errors)` with the error messages
accumulated in source order. -/
def NegotiableParams.validate (p : NegotiableParams) : Bool × List String :=
  let errors :=
    (if p.data_format ∈ SUPPORTED_DATA_FORMATS then []
     else ["Unsupported data_format: " ++ p.data_format]) ++
    (if p.compression ∈ SUPPORTED_COMPRESSION then []
     else ["Unsupported compression"]) ++
    (if p.encryption ∈ SUPPORTED_ENCRYPTION then []
     else ["Unsupported encryption: " ++ p.encryption]) ++
    (if p.error_correction ∈ SUPPORTED_ERROR_CORRECTION then []
     else ["Unsupported error_correction: " ++ p.error_correction]) ++
    (if p.max_message_size < 1024 ∨ p.max_message_size > 100 * 1024 * 1024 then
      ["max_message_size must be between 1KB and 100MB"] else []) ++
    (if p.timeout_ms < 1000 ∨ p.timeout_ms > 600000 then
      ["timeout_ms must be between 1s and 10min"] else []) ++
    (if p.priority < 1 ∨ p.priority > 10 then
      ["priority must be between 1 and 10"] else [])
  (errors.length = 0, errors)

/-- `NegotiationRound` dataclass. -/
structure NegotiationRound where
  round_number : Nat
  proposer_id : String
  params : NegotiableParams
  response : Option String
deriving DecidableEq, Repr

/-- `TimeoutPolicy` enum. -/
inductive TimeoutPolicy where
  | fail
  | extend
  | notify
  | auto_accept
deriving DecidableEq, Repr

/-- `NegotiationConfig` dataclass (the fields the engine reads). -/
structure NegotiationConfig where
  default_timeout_ms : Int
  max_rounds : Nat
  timeout_policy : TimeoutPolicy
  auto_extend_count : Nat
  require_validation : Bool
  track_history : Bool
deriving DecidableEq, Repr

/-- `NegotiationConfig()` defaults. -/
def NegotiationConfig.defaults : NegotiationConfig :=
  { default_timeout_ms := 30000
    max_rounds := 10
    timeout_policy := .fail
    auto_extend_count := 2
    require_validation := true
    track_history := true }

/-- `NegotiationSession` dataclass.  The metadata dict is modelled by the two
boolean flags the engine writes into it. -/
structure NegotiationSession where
  session_id : String
  initiator_id : String
  responder_id : String
  state : NegotiationState
  proposed_params : NegotiableParams
  counter_params : Option NegotiableParams
  final_params : Option NegotiableParams
  created_at : Int
  updated_at : Int
  expires_at : Option Int
  failure_reason : Option String
  rounds : List NegotiationRound
  extend_count : Nat
  meta_auto_accepted : Bool
  meta_timeout_notified : Bool
deriving DecidableEq, Repr

/-- `NegotiationSession.is_expired` at instant `now`. -/
def NegotiationSession.is_expired (s : NegotiationSession) (now : Int) : Bool :=
  match s.expires_at with
  | none => false
  | some t => now > t

/-- `NegotiationSession.add_round`. -/
def NegotiationSession.add_round (s : NegotiationSession) (proposer : String)
    (params : NegotiableParams) (response : Option String) :
    NegotiationSession :=
  { s with rounds := s.rounds ++
      [{ round_number := s.rounds.length + 1
         proposer_id := proposer
         params := params
         response := response }] }

/-- The `NegotiationEngine` mutable state: active sessions dict, archived
(completed) sessions list, plus a counter standing in for `uuid.uuid4()`. -/
structure NegotiationEngine where
  config : NegotiationConfig
  sessions : List (String × NegotiationSession)
  completed_sessions : List NegotiationSession
  next_id : Nat
deriving DecidableEq, Repr

/-- `NegotiationEngine(config=None)`. -/
def NegotiationEngine.fresh : NegotiationEngine :=
  { config := NegotiationConfig.defaults
    sessions := []
    completed_sessions := []
    next_id := 0 }

/-- `NegotiationEngine._get_session`. -/
def NegotiationEngine.get_session (st : NegotiationEngine) (sid : String) :
    Except String NegotiationSession :=
  match lookupA st.sessions sid with
  | none => .error ("Session " ++ sid ++ " not found")
  | some s => .ok s

/-- Store an updated session back under the key it was looked up at
(Python mutates the shared object in place). -/
def NegotiationEngine.put_session (st : NegotiationEngine) (sid : String)
    (s : NegotiationSession) : NegotiationEngine :=
  { st with sessions := insertA st.sessions sid s }

/-- `NegotiationEngine._archive_session`: append to the completed list and
remove from the active map. -/
def NegotiationEngine.archive_session (st : NegotiationEngine) (sid : String)
    (s : NegotiationSession) : NegotiationEngine :=
  { st with completed_sessions := st.completed_sessions ++ [s],
            sessions := eraseA st.sessions sid }

/-- `NegotiationEngine.initiate_session` (proposed params already a
`NegotiableParams`; `alignment_score`/`metadata` omitted as they are unread
by the claims). -/
def NegotiationEngine.initiate_session (st : NegotiationEngine)
    (initiator responder : String) (proposed : NegotiableParams)
    (timeout_ms : Option Int) (now : Int) :
    Except String (NegotiationEngine × NegotiationSession) := do
  if st.config.require_validation ∧ ¬(proposed.validate).1 then
    throw "Invalid parameters"
  let sid := "session-" ++ toString st.next_id
  let timeout := timeout_ms.getD st.config.default_timeout_ms
  let s : NegotiationSession :=
    { session_id := sid
      initiator_id := initiator
      responder_id := responder
      state := .awaiting_response
      proposed_params := proposed
      counter_params := none
      final_params := none
      created_at := now
      updated_at := now
      expires_at := some (now + timeout)
      failure_reason := none
      rounds := []
      extend_count := 0
      meta_auto_accepted := false
      meta_timeout_notified := false }
  let s := if st.config.track_history then s.add_round initiator proposed none
           else s
  pure ({ st with sessions := insertA st.sessions sid s, next_id := st.next_id + 1 }, s)

/-- `NegotiationEngine.receive_proposal`. -/
def NegotiationEngine.receive_proposal (st : NegotiationEngine)
    (sid responder : String) (now : Int) :
    Except String (NegotiationEngine × NegotiationSession) := do
  let s ← st.get_session sid
  if s.responder_id ≠ responder then
    throw "Agent is not the responder for this session"
  let s := { s with state := .proposal_received, updated_at := now }
  pure (st.put_session sid s, s)

/-- `NegotiationEngine.respond_accept`. -/
def NegotiationEngine.respond_accept (st : NegotiationEngine)
    (sid responder : String) (now : Int) :
    Except String (NegotiationEngine × NegotiationSession) := do
  let s ← st.get_session sid
  if s.responder_id ≠ responder then
    throw "Agent is not the responder for this session"
  if s.state ≠ .proposal_received ∧ s.state ≠ .counter_received then
    throw "Cannot accept from current state"
  let s := { s with state := .awaiting_finalization, updated_at := now }
  pure (st.put_session sid s, s)

/-- `NegotiationEngine.respond_counter`. -/
def NegotiationEngine.respond_counter (st : NegotiationEngine)
    (sid responder : String) (counter : NegotiableParams) (now : Int) :
    Except String (NegotiationEngine × NegotiationSession) := do
  let s ← st.get_session sid
  if s.responder_id ≠ responder then
    throw "Agent is not the responder for this session"
  if s.state ≠ .proposal_received then
    throw "Cannot counter from current state"
  let s := { s with counter_params := some counter,
                    state := .awaiting_finalization, updated_at := now }
  pure (st.put_session sid s, s)

/-- `NegotiationEngine.respond_reject`.  NOTE: unlike `respond_accept` and
`respond_counter`, the source performs no state check here; the only guard
is the responder identity. -/
def NegotiationEngine.respond_reject (st : NegotiationEngine)
    (sid responder : String) (reason : Option String) (now : Int) :
    Except String (NegotiationEngine × NegotiationSession) :=
  match st.get_session sid with
  | .error e => .error e
  | .ok s =>
      if s.responder_id ≠ responder then
        .error "Agent is not the responder for this session"
      else
        let s := { s with state := .failed,
                          failure_reason := some (reason.getD "Proposal rejected"),
                          updated_at := now }
        .ok (st.put_session sid s, s)

/-- `NegotiationEngine.accept_counter`. -/
def NegotiationEngine.accept_counter (st : NegotiationEngine)
    (sid initiator : String) (now : Int) :
    Except String (NegotiationEngine × NegotiationSession) := do
  let s ← st.get_session sid
  if s.initiator_id ≠ initiator then
    throw "Agent is not the initiator for this session"
  if s.state ≠ .awaiting_finalization then
    throw "Cannot accept counter from current state"
  if s.counter_params = none then
    throw "No counter-proposal to accept"
  let s := { s with state := .finalizing, updated_at := now }
  pure (st.put_session sid s, s)

/-- `NegotiationEngine.finalize_session`.  NOTE: the source does not archive
the finalized session; it stays in the active map. -/
def NegotiationEngine.finalize_session (st : NegotiationEngine)
    (sid initiator : String) (now : Int) :
    Except String (NegotiationEngine × NegotiationSession) := do
  let s ← st.get_session sid
  if s.initiator_id ≠ initiator then
    throw "Agent is not the initiator for this session"
  if s.state ≠ .awaiting_finalization ∧ s.state ≠ .finalizing then
    throw "Cannot finalize from current state"
  let s := { s with final_params := some (s.counter_params.getD s.proposed_params),
                    state := .finalized, updated_at := now }
  pure (st.put_session sid s, s)

/-- `NegotiationEngine.close_session`. -/
def NegotiationEngine.close_session (st : NegotiationEngine)
    (sid agent : String) (reason : Option String) (now : Int) :
    Except String (NegotiationEngine × NegotiationSession) := do
  let s ← st.get_session sid
  if s.initiator_id ≠ agent ∧ s.responder_id ≠ agent then
    throw "Agent is not part of this session"
  let s := { s with state := .closed, failure_reason := reason,
                    updated_at := now }
  pure (st.put_session sid s, s)

/-- `NegotiationEngine.check_timeout`.  The source checks only
`session.is_expired()` — it never looks at the session state, so a session
already in a terminal state is re-processed like any other. -/
def NegotiationEngine.check_timeout (st : NegotiationEngine) (sid : String)
    (now : Int) :
    Except String (Bool × NegotiationEngine × NegotiationSession) := do
  let s ← st.get_session sid
  if ¬s.is_expired now then
    return (false, st, s)
  match st.config.timeout_policy with
  | .fail =>
      let s := { s with state := .timed_out,
                        failure_reason := some "Session timed out" }
      pure (true, (st.put_session sid s).archive_session sid s, s)
  | .extend =>
      if s.extend_count < st.config.auto_extend_count then
        let s := { s with extend_count := s.extend_count + 1,
                          expires_at := some (now + st.config.default_timeout_ms),
                          updated_at := now }
        pure (false, st.put_session sid s, s)
      else
        let s := { s with state := .timed_out,
                          failure_reason := some ("Timed out after " ++
                            toString s.extend_count ++ " extensions") }
        pure (true, (st.put_session sid s).archive_session sid s, s)
  | .auto_accept =>
      let s := { s with final_params := some (s.counter_params.getD s.proposed_params),
                        state := .finalized, meta_auto_accepted := true }
      pure (true, (st.put_session sid s).archive_session sid s, s)
  | .notify =>
      let s := { s with meta_timeout_notified := true }
      pure (true, st.put_session sid s, s)

/-- `NegotiationEngine.check_all_timeouts`: snapshot the key list, check each
session, collect the timed-out ones. -/
def NegotiationEngine.check_all_timeouts (st : NegotiationEngine) (now : Int) :
    Except String (NegotiationEngine × List NegotiationSession) := do
  let keys := st.sessions.map Prod.fst
  let mut cur := st
  let mut timed : List NegotiationSession := []
  for sid in keys do
    let (expired, st', s) ← cur.check_timeout sid now
    cur := st'
    if expired then
      timed := timed ++ [s]
  pure (cur, timed)

/-- The concrete scenario shared by claims C3 and C7: initiate a session
between agents `A` and `B` at time 0 (expiry 30000 ms later), receive the
proposal, accept it, and finalize it at time 30. -/
def negFinalizedRun :
    Except String (NegotiationEngine × NegotiationSession) := do
  let (e1, s1) ← NegotiationEngine.fresh.initiate_session "A" "B"
    NegotiableParams.defaults none 0
  let (e2, _) ← e1.receive_proposal s1.session_id "B" 10
  let (e3, _) ← e2.respond_accept s1.session_id "B" 20
  e3.finalize_session s1.session_id "A" 30

/-- The engine right after the finalize step. -/
def negFinalizedEngine : Option NegotiationEngine :=
  match negFinalizedRun with
  | .ok (e, _) => some e
  | .error _ => none

/-- The session object right after the finalize step. -/
def negFinalizedSession : Option NegotiationSession :=
  match negFinalizedRun with
  | .ok (_, s) => some s
  | .error _ => none

/-- `check_timeout` on the finalized session, called at time 60000 ms (past
the expiry at 30000 ms). -/
def negTimeoutRun :
    Except String (Bool × NegotiationEngine × NegotiationSession) :=
  match negFinalizedRun with
  | .ok (e, _) => e.check_timeout "session-0" 60000
  | .error msg => .error msg

/-- The session object after that `check_timeout` call. -/
def negTimeoutSession : Option NegotiationSession :=
  match negTimeoutRun with
  | .ok (_, _, s) => some s
  | .error _ => none

/-- The engine after that `check_timeout` call. -/
def negTimeoutEngine : Option NegotiationEngine :=
  match negTimeoutRun with
  | .ok (_, e, _) => some e
  | .error _ => none

/-- Claim C3 (refutation by evaluation of the code): after
`finalize_session`, the finalized session is still in the active sessions
map and the completed-sessions list is empty (no archiving on the terminal
transition), and a later `check_timeout` past the expiry instant re-marks
the very same finalized session as `timed_out` with failure reason
`Session timed out`, and only then archives it.  A finalized session can
therefore subsequently become timed out, contrary to the claim. -/
theorem finalized_session_not_archived_and_later_timed_out :
    (negFinalizedSession.map fun s => s.state) = some NegotiationState.finalized ∧
    (negFinalizedEngine.map fun e => lookupA e.sessions "session-0") =
      some negFinalizedSession ∧
    (negFinalizedEngine.map fun e => e.completed_sessions) = some [] ∧
    (negTimeoutSession.map fun s => s.state) = some NegotiationState.timed_out ∧
    (negTimeoutSession.map fun s => s.failure_reason) =
      some (some "Session timed out") ∧
    (negTimeoutEngine.map fun e => lookupA e.sessions "session-0") = some none ∧
    (negTimeoutEngine.map fun e => e.completed_sessions) =
      negTimeoutSession.map (fun s => [s]) := by
  decide

lemma lookupA_insertA {α : Type} (m : List (String × α)) (k : String) (v : α) :
    lookupA (insertA m k v) k = some v := by
  induction m with
  | nil => simp [insertA, lookupA]
  | cons hd tl ih =>
      obtain ⟨k', v'⟩ := hd
      by_cases hk : k' = k
      · subst hk
        simp [insertA, lookupA]
      · simp [insertA, lookupA, hk, ih]

/-- `respond_reject` on the finalized session of `negFinalizedRun`: the
responder rejects a session that is already `finalized`. -/
def negRejectOnFinalized :
    Except String (NegotiationEngine × NegotiationSession) :=
  match negFinalizedRun with
  | .ok (e, _) => e.respond_reject "session-0" "B" (some "changed my mind") 40
  | .error msg => .error msg

/-- Claim C7 counterexample: calling `respond_reject` on a session in state
`finalized` (not `proposal_received`) does NOT fail — it succeeds and
overwrites the session state to `failed` with the given failure reason.
The source guards only the responder identity, never the state. -/
theorem respond_reject_on_finalized_succeeds_and_mutates :
    (negFinalizedSession.map fun s => s.state) = some NegotiationState.finalized ∧
    (match negRejectOnFinalized with
     | .ok (_, s) => some (s.state, s.failure_reason)
     | .error _ => none) =
      some (NegotiationState.failed, some "changed my mind") := by
  decide

/-- Claim C7 amended: `respond_reject` performs no state check.  From any
session state whatsoever (including the terminal states `finalized` and
`closed`), as long as the caller is the session responder, the call
succeeds, setting the state to `failed` and the failure reason to the given
reason (default `Proposal rejected`), leaving `final_params` untouched. -/
theorem respond_reject_any_state (st : NegotiationEngine)
    (sid responder : String) (reason : Option String) (now : Int)
    (s : NegotiationSession) (hs : lookupA st.sessions sid = some s)
    (hr : s.responder_id = responder) :
    ∃ st' s', st.respond_reject sid responder reason now = .ok (st', s') ∧
      s'.state = NegotiationState.failed ∧
      s'.failure_reason = some (reason.getD "Proposal rejected") ∧
      s'.final_params = s.final_params ∧
      lookupA st'.sessions sid = some s' := by
  refine ⟨st.put_session sid { s with state := NegotiationState.failed, failure_reason := some (reason.getD "Proposal rejected"), updated_at := now }, { s with state := NegotiationState.failed, failure_reason := some (reason.getD "Proposal rejected"), updated_at := now }, ?_, rfl, rfl, rfl, ?_⟩
  · have hget : st.get_session sid = .ok s := by
      unfold NegotiationEngine.get_session
      rw [hs]
    unfold NegotiationEngine.respond_reject
    rw [hget]
    simp [hr]
  · exact lookupA_insertA _ _ _

/-- A concrete engine holding one already-finalized session, for the C7
witness. -/
def c7Session : NegotiationSession :=
  { session_id := "s1"
    initiator_id := "A"
    responder_id := "B"
    state := .finalized
    proposed_params := NegotiableParams.defaults
    counter_params := none
    final_params := some NegotiableParams.defaults
    created_at := 0
    updated_at := 30
    expires_at := some 30000
    failure_reason := none
    rounds := []
    extend_count := 0
    meta_auto_accepted := false
    meta_timeout_notified := false }

/-- Engine state containing `c7Session` under key `s1`. -/
def c7Engine : NegotiationEngine :=
  { config := NegotiationConfig.defaults
    sessions := [("s1", c7Session)]
    completed_sessions := []
    next_id := 1 }

/-- Witness for `respond_reject_any_state` at a concrete finalized
session. -/
theorem respond_reject_any_state_witness :
    lookupA c7Engine.sessions "s1" = some c7Session ∧
    c7Session.responder_id = "B" ∧
    (∃ st' s', c7Engine.respond_reject "s1" "B" (some "no thanks") 99 =
        .ok (st', s') ∧
      s'.state = NegotiationState.failed ∧
      s'.failure_reason = some ((some "no thanks").getD "Proposal rejected") ∧
      s'.final_params = c7Session.final_params ∧
      lookupA st'.sessions "s1" = some s') :=
  ⟨by decide, by decide,
    respond_reject_any_state c7Engine "s1" "B" (some "no thanks") 99 c7Session
      (by decide) (by decide)⟩

/-! ## Emergence engine (`emergence.py`) -/

/-- `VariantStatus` enum: exactly the members declared in the source. -/
inductive VariantStatus where
  | proposed
  | testing
  | canary
  | active
  | deprecated
  | rolled_back
  | paused
deriving DecidableEq, Repr

/-- Python attribute lookup `VariantStatus.<NAME>` on the enum class: returns
a member only for the names actually declared in `emergence.py`
(`PROPOSED`, `TESTING`, `CANARY`, `ACTIVE`, `DEPRECATED`, `ROLLED_BACK`,
`PAUSED`); any other name raises `AttributeError`, modelled by `none`. -/
def variantStatusMember (name : String) : Option VariantStatus :=
  if name = "PROPOSED" then some .proposed
  else if name = "TESTING" then some .testing
  else if name = "CANARY" then some .canary
  else if name = "ACTIVE" then some .active
  else if name = "DEPRECATED" then some .deprecated
  else if name = "ROLLED_BACK" then some .rolled_back
  else if name = "PAUSED" then some .paused
  else none

/-- The `.value` string of a `VariantStatus` member. -/
def VariantStatus.value : VariantStatus → String
  | .proposed => "proposed"
  | .testing => "testing"
  | .canary => "canary"
  | .active => "active"
  | .deprecated => "deprecated"
  | .rolled_back => "rolled_back"
  | .paused => "paused"

/-- `MetricTrend` enum. -/
inductive MetricTrend where
  | improving
  | stable
  | degrading
  | volatile
  | insufficient_data
deriving DecidableEq, Repr

/-- `RollbackReason` enum. -/
inductive RollbackReason where
  | circuit_open
  | success_rate_low
  | latency_high
  | error_spike
  | trend_degrading
  | anomaly_detected
  | manual
  | alignment_threshold
deriving DecidableEq, Repr

/-- The `.value` string of a `RollbackReason` member. -/
def RollbackReason.value : RollbackReason → String
  | .circuit_open => "circuit_open"
  | .success_rate_low => "success_rate_low"
  | .latency_high => "latency_high"
  | .error_spike => "error_spike"
  | .trend_degrading => "trend_degrading"
  | .anomaly_detected => "anomaly_detected"
  | .manual => "manual"
  | .alignment_threshold => "alignment_threshold"

/-- `EmergenceConfig` dataclass. -/
structure EmergenceConfig where
  max_rollback_points : Nat
  canary_initial_percentage : Rat
  canary_ramp_steps : Nat
  min_success_rate : Rat
  max_latency_ms : Rat
  error_spike_threshold : Int
  trend_window_size : Nat
  trend_degradation_threshold : Rat
  adaptive_ramp_enabled : Bool
  fast_ramp_threshold : Rat
  slow_ramp_threshold : Rat
  pause_threshold : Rat
  ab_significance_level : Rat
  min_sample_size : Nat
  track_outcomes : Bool
deriving DecidableEq, Repr

/-- `EmergenceConfig()` defaults. -/
def EmergenceConfig.defaults : EmergenceConfig :=
  { max_rollback_points := 10
    canary_initial_percentage := mkRat 1 10
    canary_ramp_steps := 5
    min_success_rate := mkRat 9 10
    max_latency_ms := 5000
    error_spike_threshold := 10
    trend_window_size := 5
    trend_degradation_threshold := mkRat (-1) 20
    adaptive_ramp_enabled := true
    fast_ramp_threshold := mkRat 98 100
    slow_ramp_threshold := mkRat 93 100
    pause_threshold := mkRat 9 10
    ab_significance_level := mkRat 95 100
    min_sample_size := 100
    track_outcomes := true }

/-- `PerformanceMetrics` dataclass (the fields the engine reads;
`errors_by_type` is never consulted by the claims under study). -/
structure PerformanceMetrics where
  success_rate : Rat
  latency_ms : Rat
  latency_p50_ms : Rat
  latency_p95_ms : Rat
  latency_p99_ms : Rat
  throughput : Rat
  error_count : Int
  total_requests : Int
  timestamp : Int
  memory_mb : Rat
  cpu_percent : Rat
deriving DecidableEq, Repr

/-- `getattr(m, metric, 0)` for the metric names `analyze_trend` and
`detect_anomaly` use. -/
def metricAttr (metric : String) (m : PerformanceMetrics) : Rat :=
  if metric = "success_rate" then m.success_rate
  else if metric = "latency_ms" then m.latency_ms
  else if metric = "throughput" then m.throughput
  else 0

/-- `ProtocolVariant` dataclass.  The metadata dict is modelled by the two
entries the engine writes (`rollback_reason`, `alignment_warning`);
`changes` and `feature_flags` are string dicts. -/
structure ProtocolVariant where
  variant_id : String
  description : String
  changes : List (String × String)
  status : VariantStatus
  created_at : Int
  updated_at : Int
  metrics_history : List PerformanceMetrics
  canary_percentage : Rat
  adoption_count : Nat
  parent_variant_id : Option String
  tags : List String
  alignment_score : Option Rat
  negotiation_session_id : Option String
  rollback_count : Nat
  pause_count : Nat
  meta_rollback_reason : Option String
  meta_alignment_warning : Bool
deriving DecidableEq, Repr

/-- Python `l[-n:]` for `n ≥ 1`. -/
def lastN {α : Type} (l : List α) (n : Nat) : List α := l.drop (l.length - n)

/-- `ProtocolVariant.get_average_success_rate` (window defaults to 10). -/
def ProtocolVariant.get_average_success_rate (v : ProtocolVariant)
    (window : Nat) : Rat :=
  if v.metrics_history = [] then 1
  else
    let recent := lastN v.metrics_history window
    pyDiv (pySum (recent.map (fun m => m.success_rate))) ((recent.length : Nat) : ℚ)

/-- `ProtocolVariant.get_average_latency` (window defaults to 10). -/
def ProtocolVariant.get_average_latency (v : ProtocolVariant)
    (window : Nat) : Rat :=
  if v.metrics_history = [] then 0
  else
    let recent := lastN v.metrics_history window
    pyDiv (pySum (recent.map (fun m => m.latency_ms))) ((recent.length : Nat) : ℚ)

/-- `VariantOutcome` dataclass. -/
structure VariantOutcome where
  variant_id : String
  changes : List (String × String)
  final_status : VariantStatus
  success_rate : Rat
  duration_hours : Rat
  rollback_count : Nat
  tags : List String
  timestamp : Int
deriving DecidableEq, Repr

/-- `RollbackPoint` dataclass (its `state_snapshot` dict flattened). -/
structure RollbackPoint where
  point_id : String
  variant_id : String
  snap_status : String
  snap_changes : List (String × String)
  snap_canary_percentage : Rat
deriving DecidableEq, Repr

/-- `ABTestExperiment` dataclass. -/
structure ABTestExperiment where
  experiment_id : String
  control_variant_id : String
  treatment_variant_id : String
  started_at : Int
  ended_at : Option Int
  traffic_split : Rat
  control_metrics : List PerformanceMetrics
  treatment_metrics : List PerformanceMetrics
  winner : Option String
  confidence : Rat
  status : String
deriving DecidableEq, Repr

/-- The `EmergenceEngine` mutable state (`uuid.uuid4()` modelled by the
`next_id` counter; the rollback-point deque keeps at most
`max_rollback_points` entries, dropping from the front). -/
structure EmergenceEngine where
  config : EmergenceConfig
  variants : List (String × ProtocolVariant)
  circuit_breakers : List (String × CircuitBreaker)
  rollback_points : List RollbackPoint
  current_active_variant : Option String
  experiments : List (String × ABTestExperiment)
  outcomes : List VariantOutcome
  next_id : Nat
deriving DecidableEq, Repr

/-- `EmergenceEngine(config=None)`. -/
def EmergenceEngine.fresh : EmergenceEngine :=
  { config := EmergenceConfig.defaults
    variants := []
    circuit_breakers := []
    rollback_points := []
    current_active_variant := none
    experiments := []
    outcomes := []
    next_id := 0 }

/-- `deque.append` with `maxlen` semantics. -/
def EmergenceEngine.pushRollbackPoint (st : EmergenceEngine)
    (p : RollbackPoint) : EmergenceEngine :=
  let pts := st.rollback_points ++ [p]
  let pts := if pts.length > st.config.max_rollback_points then
    pts.drop (pts.length - st.config.max_rollback_points) else pts
  { st with rollback_points := pts }

/-- `EmergenceEngine.propose_variant`. -/
def EmergenceEngine.propose_variant (st : EmergenceEngine)
    (description : String) (changes : List (String × String)) (now : Int) :
    EmergenceEngine × ProtocolVariant :=
  let vid := "variant-" ++ toString st.next_id
  let v : ProtocolVariant :=
    { variant_id := vid
      description := description
      changes := changes
      status := .proposed
      created_at := now
      updated_at := now
      metrics_history := []
      canary_percentage := 0
      adoption_count := 0
      parent_variant_id := none
      tags := []
      alignment_score := none
      negotiation_session_id := none
      rollback_count := 0
      pause_count := 0
      meta_rollback_reason := none
      meta_alignment_warning := false }
  ({ st with variants := insertA st.variants vid v,
             circuit_breakers := insertA st.circuit_breakers vid CircuitBreaker.default,
             next_id := st.next_id + 1 }, v)

/-- `EmergenceEngine._get_variant`. -/
def EmergenceEngine.get_variant (st : EmergenceEngine) (vid : String) :
    Except String ProtocolVariant :=
  match lookupA st.variants vid with
  | none => .error ("Variant " ++ vid ++ " not found")
  | some v => .ok v

/-- `EmergenceEngine.start_testing`. -/
def EmergenceEngine.start_testing (st : EmergenceEngine) (vid : String)
    (now : Int) : Except String (EmergenceEngine × ProtocolVariant) :=
  match lookupA st.variants vid with
  | none => .error ("Variant " ++ vid ++ " not found")
  | some v =>
      if v.status ≠ .proposed then
        .error "Can only start testing from PROPOSED status"
      else
        let v := { v with status := .testing, updated_at := now }
        .ok ({ st with variants := insertA st.variants vid v }, v)

/-- `EmergenceEngine._create_rollback_point`. -/
def EmergenceEngine.create_rollback_point (st : EmergenceEngine)
    (v : ProtocolVariant) : EmergenceEngine × RollbackPoint :=
  let p : RollbackPoint :=
    { point_id := "point-" ++ toString st.next_id
      variant_id := v.variant_id
      snap_status := v.status.value
      snap_changes := v.changes
      snap_canary_percentage := v.canary_percentage }
  ({ (st.pushRollbackPoint p) with next_id := st.next_id + 1 }, p)

/-- `EmergenceEngine.start_canary`. -/
def EmergenceEngine.start_canary (st : EmergenceEngine) (vid : String)
    (initial_percentage : Option Rat) (now : Int) :
    Except String (EmergenceEngine × ProtocolVariant) :=
  match lookupA st.variants vid with
  | none => .error ("Variant " ++ vid ++ " not found")
  | some v =>
      if v.status ≠ .testing then
        .error "Can only start canary from TESTING status"
      else
        let (st, _) := st.create_rollback_point v
        let v := { v with
          status := .canary
          canary_percentage := initial_percentage.getD st.config.canary_initial_percentage
          updated_at := now }
        .ok ({ st with variants := insertA st.variants vid v }, v)

/-- `EmergenceEngine._calculate_adaptive_ramp`. -/
def calculateAdaptiveRamp (cfg : EmergenceConfig) (v : ProtocolVariant) :
    String :=
  if v.metrics_history.length < 3 then "normal"
  else
    let avg_success := v.get_average_success_rate 5
    if pyLe cfg.fast_ramp_threshold avg_success then "fast"
    else if pyLe cfg.slow_ramp_threshold avg_success then "normal"
    else if pyLe cfg.pause_threshold avg_success then "slow"
    else "pause"

/-- `EmergenceEngine.ramp_canary`. -/
def EmergenceEngine.ramp_canary (st : EmergenceEngine) (vid : String)
    (force : Bool) (now : Int) :
    Except String (EmergenceEngine × ProtocolVariant) :=
  match lookupA st.variants vid with
  | none => .error ("Variant " ++ vid ++ " not found")
  | some v =>
      if v.status ≠ .canary then
        .error "Can only ramp canary in CANARY status"
      else
        let d := calculateAdaptiveRamp st.config v
        if st.config.adaptive_ramp_enabled ∧ ¬force ∧ d = "pause" then
          let v := { v with status := .paused, pause_count := v.pause_count + 1,
                            updated_at := now }
          .ok ({ st with variants := insertA st.variants vid v }, v)
        else
          let step_size : Rat :=
            if st.config.adaptive_ramp_enabled ∧ ¬force then
              if d = "slow" then pyDiv (mkRat 1 2) ((st.config.canary_ramp_steps : Nat) : ℚ)
              else if d = "fast" then pyDiv 2 ((st.config.canary_ramp_steps : Nat) : ℚ)
              else pyDiv 1 ((st.config.canary_ramp_steps : Nat) : ℚ)
            else pyDiv 1 ((st.config.canary_ramp_steps : Nat) : ℚ)
          let v := { v with canary_percentage := pyMin 1 (pyAdd v.canary_percentage step_size),
                            updated_at := now }
          if pyLe 1 v.canary_percentage then
            let v := { v with status := .active }
            .ok ({ st with variants := insertA st.variants vid v,
                           current_active_variant := some vid }, v)
          else
            .ok ({ st with variants := insertA st.variants vid v }, v)

/-- Python `statistics.mean`. -/
def pyMean (l : List Rat) : Rat := pyDiv (pySum l) ((l.length : Nat) : ℚ)

/-- Python `statistics.variance` (sample variance, denominator `n - 1`;
the `statistics` module computes it exactly over fractions). -/
def pyVariance (l : List Rat) : Rat :=
  pyDiv (pySum (l.map (fun x => pyPow2 (pySub x (pyMean l)))))
    (pySub ((l.length : Nat) : ℚ) 1)

/-- `EmergenceEngine.analyze_trend`.  `sqrt` is the interpretation of
`math.sqrt`/`** 0.5` (used only for the coefficient of variation). -/
def analyzeTrend (sqrt : Rat → Rat) (st : EmergenceEngine) (vid : String)
    (metric : String) : Except String MetricTrend :=
  match lookupA st.variants vid with
  | none => .error ("Variant " ++ vid ++ " not found")
  | some v =>
      let window := st.config.trend_window_size
      if v.metrics_history.length < window then .ok .insufficient_data
      else
        let recent := lastN v.metrics_history window
        let values := recent.map (metricAttr metric)
        let n := values.length
        if n < 2 then .ok .insufficient_data
        else
          let x_mean : Rat := pyDiv (pySub ((n : Nat) : ℚ) 1) 2
          let y_mean : Rat := pyDiv (pySum values) ((n : Nat) : ℚ)
          let numer := pySum ((List.range n).map
            (fun (i : Nat) => pyMul (pySub ((i : Nat) : ℚ) x_mean) (pySub (values.getD i 0) y_mean)))
          let denom := pySum ((List.range n).map
            (fun (i : Nat) => pyPow2 (pySub ((i : Nat) : ℚ) x_mean)))
          if pyEqQ denom 0 then .ok .stable
          else
            let slope := pyDiv numer denom
            let normalized_slope := pyDiv slope (if !(pyEqQ y_mean 0) then y_mean else 1)
            let variance := if n > 1 then pyVariance values else 0
            let cv := if !(pyEqQ y_mean 0) then pyDiv (sqrt variance) y_mean else 0
            if pyLt (mkRat 3 10) cv then .ok .volatile
            else if pyLt (mkRat 1 20) normalized_slope then
              .ok (if metric ≠ "latency_ms" then .improving else .degrading)
            else if pyLt normalized_slope (mkRat (-1) 20) then
              .ok (if metric ≠ "latency_ms" then .degrading else .improving)
            else .ok .stable

/-- `EmergenceEngine._should_auto_rollback`: the ordered checks — circuit
open, breaker flapping, recent-3 metric thresholds, degrading trend. -/
def shouldAutoRollback (sqrt : Rat → Rat) (st : EmergenceEngine)
    (v : ProtocolVariant) (now : Int) :
    Except String (Bool × Option RollbackReason) :=
  match lookupA st.circuit_breakers v.variant_id with
  | none => .error "KeyError: no circuit breaker for variant"
  | some circuit =>
      if circuit.state = CircuitState.open_ then
        .ok (true, some .circuit_open)
      else if circuit.is_flapping now then
        .ok (true, some .anomaly_detected)
      else
        let trendCheck : Except String (Bool × Option RollbackReason) :=
          match analyzeTrend sqrt st v.variant_id "success_rate" with
          | .error e => .error e
          | .ok trend =>
              if trend = .degrading ∧
                  v.metrics_history.length ≥ st.config.trend_window_size then
                .ok (true, some .trend_degrading)
              else .ok (false, none)
        if v.metrics_history.length ≥ 3 then
          let recent := lastN v.metrics_history 3
          let avg_success := pyDiv (pySum (recent.map (fun m => m.success_rate)))
            ((recent.length : Nat) : ℚ)
          if pyLt avg_success st.config.min_success_rate then
            .ok (true, some .success_rate_low)
          else
            let avg_latency := pyDiv (pySum (recent.map (fun m => m.latency_ms)))
              ((recent.length : Nat) : ℚ)
            if pyLt st.config.max_latency_ms avg_latency then
              .ok (true, some .latency_high)
            else
              let total_errors := (recent.map (fun m => m.error_count)).sum
              if total_errors > st.config.error_spike_threshold * 3 then
                .ok (true, some .error_spike)
              else trendCheck
        else trendCheck

/-- `EmergenceEngine.should_rollback`: public wrapper returning the
`(should_rollback, reason)` tuple. -/
def EmergenceEngine.should_rollback (sqrt : Rat → Rat) (st : EmergenceEngine)
    (vid : String) (now : Int) :
    Except String (Bool × Option RollbackReason) :=
  match lookupA st.variants vid with
  | none => .error ("Variant " ++ vid ++ " not found")
  | some v => shouldAutoRollback sqrt st v now

/-- `EmergenceEngine._record_outcome` (called with the variant as it is at
the instant of recording). -/
def EmergenceEngine.record_outcome (st : EmergenceEngine)
    (v : ProtocolVariant) (now : Int) : EmergenceEngine :=
  let outcome : VariantOutcome :=
    { variant_id := v.variant_id
      changes := v.changes
      final_status := v.status
      success_rate := v.get_average_success_rate 10
      duration_hours := pyDiv ((now - v.created_at : Int) : ℚ) 3600
      rollback_count := v.rollback_count
      tags := v.tags
      timestamp := now }
  { st with outcomes := st.outcomes ++ [outcome] }

/-- `EmergenceEngine.rollback`: bump the rollback count, record the outcome
when `track_outcomes` is on, then mark the variant `rolled_back` with the
reason in its metadata (whether or not a rollback point exists). -/
def EmergenceEngine.rollback (st : EmergenceEngine) (vid : String)
    (reason : RollbackReason) (now : Int) :
    Except String (EmergenceEngine × Option RollbackPoint) :=
  match lookupA st.variants vid with
  | none => .error ("Variant " ++ vid ++ " not found")
  | some v =>
      let v := { v with rollback_count := v.rollback_count + 1 }
      let st := { st with variants := insertA st.variants vid v }
      let st := if st.config.track_outcomes then st.record_outcome v now else st
      let point := st.rollback_points.reverse.find?
        (fun p => p.variant_id = vid)
      let v := { v with status := .rolled_back, updated_at := now,
                        meta_rollback_reason := some reason.value }
      let st := { st with variants := insertA st.variants vid v }
      .ok (st, point)

/-- `EmergenceEngine.track_performance`: append the metric, feed the circuit
breaker, then auto-rollback if `_should_auto_rollback` fires.  Returns the
engine and the variant object as the caller sees it afterwards. -/
def EmergenceEngine.track_performance (sqrt : Rat → Rat)
    (st : EmergenceEngine) (vid : String) (m : PerformanceMetrics)
    (now : Int) : Except String (EmergenceEngine × ProtocolVariant) :=
  match lookupA st.variants vid with
  | none => .error ("Variant " ++ vid ++ " not found")
  | some v =>
      let v := { v with metrics_history := v.metrics_history ++ [m],
                        updated_at := now }
      let st := { st with variants := insertA st.variants vid v }
      match lookupA st.circuit_breakers vid with
      | none => .error "KeyError: no circuit breaker for variant"
      | some circuit =>
          let circuit :=
            if pyLt m.success_rate st.config.min_success_rate then
              circuit.record_failure now
            else if pyLt st.config.max_latency_ms m.latency_ms then
              circuit.record_failure now
            else if m.error_count > st.config.error_spike_threshold then
              circuit.record_failure now
            else circuit.record_success now
          let st := { st with circuit_breakers := insertA st.circuit_breakers vid circuit }
          match shouldAutoRollback sqrt st v now with
          | .error e => .error e
          | .ok (rollback_needed, reason) =>
              if rollback_needed then
                match st.rollback vid (reason.getD .manual) now with
                | .error e => .error e
                | .ok (st', _) =>
                    match lookupA st'.variants vid with
                    | none => .error ("Variant " ++ vid ++ " not found")
                    | some v' => .ok (st', v')
              else .ok (st, v)

/-- The claim C8 metric: `success_rate=0.5, latency_ms=100, error_count=0,
total_requests=100` (remaining fields at their dataclass defaults). -/
def c8Metric : PerformanceMetrics :=
  { success_rate := mkRat 1 2
    latency_ms := 100
    latency_p50_ms := 0
    latency_p95_ms := 0
    latency_p99_ms := 0
    throughput := 0
    error_count := 0
    total_requests := 100
    timestamp := 0
    memory_mb := 0
    cpu_percent := 0 }

/-- The claim C8 run: propose → start_testing → start_canary, then submit
`c8Metric` three times through `track_performance`.  Returns the variant
object after the first, second and third submission. -/
def c8Run (sqrt : Rat → Rat) :
    Except String (ProtocolVariant × ProtocolVariant × ProtocolVariant) := do
  let (e1, v) := EmergenceEngine.fresh.propose_variant "v" [("x", "1")] 0
  let (e2, _) ← e1.start_testing v.variant_id 0
  let (e3, _) ← e2.start_canary v.variant_id none 0
  let (e4, v1) ← EmergenceEngine.track_performance sqrt e3 v.variant_id c8Metric 0
  let (e5, v2) ← EmergenceEngine.track_performance sqrt e4 v.variant_id c8Metric 0
  let (_, v3) ← EmergenceEngine.track_performance sqrt e5 v.variant_id c8Metric 0
  pure (v1, v2, v3)

set_option maxHeartbeats 4000000 in
set_option maxRecDepth 20000 in
/-- Claim C8: after three `track_performance` submissions with
`success_rate = 0.5`, the variant is `rolled_back` with metadata
`rollback_reason = "success_rate_low"` and `rollback_count = 1`, and no
rollback occurred on the first two submissions (the variant was still
`canary` with `rollback_count = 0` after each).  This holds for every
interpretation of `math.sqrt` because the run never reaches the trend
computation that uses it. -/
theorem track_performance_rolls_back_on_third_low_metric
    (sqrt : Rat → Rat) :
    (c8Run sqrt).toOption.map (fun t =>
      (t.1.status, t.1.rollback_count,
       t.2.1.status, t.2.1.rollback_count,
       t.2.2.status, t.2.2.meta_rollback_reason, t.2.2.rollback_count)) =
    some (VariantStatus.canary, 0,
          VariantStatus.canary, 0,
          VariantStatus.rolled_back, some "success_rate_low", 1) := by
  rfl

/-! ## A/B experiments (`emergence.py`, experiment lifecycle) -/

/-- The `confidence_thresholds` dict of `_check_experiment_significance`
(`0.90 → 1.645`, `0.95 → 1.96`, `0.99 → 2.576`, default `1.96`). -/
def zThreshold (level : ℚ) : ℚ :=
  if pyEqQ level (mkRat 90 100) then mkRat 1645 1000
  else if pyEqQ level (mkRat 95 100) then mkRat 196 100
  else if pyEqQ level (mkRat 99 100) then mkRat 2576 1000
  else mkRat 196 100

/-- `EmergenceEngine._check_experiment_significance`.  `sqrt` interprets
`math.sqrt` (used for the pooled standard error). -/
def checkExperimentSignificance (sqrt : ℚ → ℚ) (cfg : EmergenceConfig)
    (e : ABTestExperiment) (now : Int) : ABTestExperiment :=
  if e.control_metrics.length < cfg.min_sample_size ∨
      e.treatment_metrics.length < cfg.min_sample_size then e
  else
    let control_rates := e.control_metrics.map (fun m => m.success_rate)
    let treatment_rates := e.treatment_metrics.map (fun m => m.success_rate)
    let control_mean := pyDiv (pySum control_rates) ((control_rates.length : Nat) : ℚ)
    let treatment_mean := pyDiv (pySum treatment_rates) ((treatment_rates.length : Nat) : ℚ)
    let control_var := if control_rates.length > 1 then pyVariance control_rates else 0
    let treatment_var := if treatment_rates.length > 1 then pyVariance treatment_rates else 0
    let se := sqrt (pyAdd (pyDiv control_var ((control_rates.length : Nat) : ℚ))
      (pyDiv treatment_var ((treatment_rates.length : Nat) : ℚ)))
    if pyEqQ se 0 then e
    else
      let z_score := pyDiv (pyAbs (pySub treatment_mean control_mean)) se
      let z_threshold := zThreshold cfg.ab_significance_level
      if pyLe z_threshold z_score then
        let e := { e with
          status := "completed"
          ended_at := some now
          confidence := pyMin (mkRat 99 100) (pySub 1 (pyDiv 1 (pyAdd 1 z_score))) }
        if pyLt control_mean treatment_mean then
          { e with winner := some e.treatment_variant_id }
        else
          { e with winner := some e.control_variant_id }
      else e

/-- `EmergenceEngine.start_experiment`. -/
def EmergenceEngine.start_experiment (st : EmergenceEngine)
    (control treatment : String) (traffic_split : ℚ) (now : Int) :
    Except String (EmergenceEngine × ABTestExperiment) :=
  match lookupA st.variants control with
  | none => .error ("Variant " ++ control ++ " not found")
  | some _ =>
      match lookupA st.variants treatment with
      | none => .error ("Variant " ++ treatment ++ " not found")
      | some _ =>
          let eid := "experiment-" ++ toString st.next_id
          let e : ABTestExperiment :=
            { experiment_id := eid
              control_variant_id := control
              treatment_variant_id := treatment
              started_at := now
              ended_at := none
              traffic_split := traffic_split
              control_metrics := []
              treatment_metrics := []
              winner := none
              confidence := 0
              status := "running" }
          .ok ({ st with experiments := insertA st.experiments eid e,
                         next_id := st.next_id + 1 }, e)

/-- `EmergenceEngine.record_experiment_metrics`: append the metric to the
matching side, then run the significance check. -/
def EmergenceEngine.record_experiment_metrics (sqrt : ℚ → ℚ)
    (st : EmergenceEngine) (eid vid : String) (m : PerformanceMetrics)
    (now : Int) : Except String (EmergenceEngine × ABTestExperiment) :=
  match lookupA st.experiments eid with
  | none => .error ("Experiment " ++ eid ++ " not found")
  | some e =>
      if vid = e.control_variant_id then
        let e := { e with control_metrics := e.control_metrics ++ [m] }
        let e := checkExperimentSignificance sqrt st.config e now
        .ok ({ st with experiments := insertA st.experiments eid e }, e)
      else if vid = e.treatment_variant_id then
        let e := { e with treatment_metrics := e.treatment_metrics ++ [m] }
        let e := checkExperimentSignificance sqrt st.config e now
        .ok ({ st with experiments := insertA st.experiments eid e }, e)
      else .error ("Variant " ++ vid ++ " is not part of experiment")

/-- A metric carrying only a `success_rate` (all other fields at their
dataclass defaults), as the C4 acceptance flow records. -/
def successMetric (sr : ℚ) : PerformanceMetrics :=
  { success_rate := sr
    latency_ms := 0
    latency_p50_ms := 0
    latency_p95_ms := 0
    latency_p99_ms := 0
    throughput := 0
    error_count := 0
    total_requests := 0
    timestamp := 0
    memory_mb := 0
    cpu_percent := 0 }

/-- A concrete stand-in for `math.sqrt` that agrees with the real square
root at `0` — the only input the C4 run ever passes to it. -/
def mathSqrtModel : ℚ → ℚ := fun q => if pyEqQ q 0 then 0 else q

/-- The C4 setup: two proposed variants and an experiment between them with
`traffic_split = 0.5`.  The experiment gets id `experiment-2`. -/
def c4Setup : Except String (EmergenceEngine × ABTestExperiment) := do
  let (e1, vc) := EmergenceEngine.fresh.propose_variant "control" [] 0
  let (e2, vt) := e1.propose_variant "treatment" [] 0
  e2.start_experiment vc.variant_id vt.variant_id (mkRat 1 2) 0

/-- The engine after `c4Setup`. -/
def c4Engine : EmergenceEngine :=
  match c4Setup with
  | .ok (e, _) => e
  | .error _ => EmergenceEngine.fresh

/-- The C4 recordings: 150 control metrics at `0.80` then 150 treatment
metrics at `0.95`. -/
def c4Recs : List (String × PerformanceMetrics) :=
  List.replicate 150 ("variant-0", successMetric (mkRat 4 5)) ++
  List.replicate 150 ("variant-1", successMetric (mkRat 19 20))

/-- The C4 run: fold all 300 `record_experiment_metrics` calls over the
engine from `c4Setup`. -/
def c4Run (sqrt : ℚ → ℚ) : Except String EmergenceEngine :=
  c4Recs.foldlM (fun st r =>
    (EmergenceEngine.record_experiment_metrics sqrt st "experiment-2" r.1 r.2 0).map
      Prod.fst) c4Engine

lemma pySum_all_eq (c : ℚ) (l : List ℚ) (h : ∀ x ∈ l, x = c) :
    pySum l = (l.length : ℚ) * c := by
  rw [pySum_eq, List.sum_eq_card_nsmul l c h]
  simp [nsmul_eq_mul]

lemma pyMean_all_eq (c : ℚ) (l : List ℚ) (hne : l ≠ []) (h : ∀ x ∈ l, x = c) :
    pyMean l = c := by
  rw [pyMean, pySum_all_eq c l h, pyDiv_eq]
  have hlen : (l.length : ℚ) ≠ 0 := by
    have : l.length ≠ 0 := fun h0 => hne (List.length_eq_zero.mp h0)
    exact_mod_cast this
  field_simp

lemma pyVariance_all_eq (c : ℚ) (l : List ℚ) (h : ∀ x ∈ l, x = c) :
    pyVariance l = 0 := by
  rcases eq_or_ne l [] with rfl | hne
  · rw [pyVariance]
    show pyDiv (pySum []) (pySub ((0 : Nat) : ℚ) 1) = 0
    rw [show pySum [] = 0 from rfl, pyDiv_eq, zero_div]
  · have hm : pyMean l = c := pyMean_all_eq c l hne h
    rw [pyVariance]
    have hz : ∀ x ∈ l.map (fun x => pyPow2 (pySub x (pyMean l))), x = 0 := by
      intro y hy
      obtain ⟨x, hx, rfl⟩ := List.mem_map.mp hy
      rw [h x hx, hm, pyPow2_eq, pySub_eq, sub_self]
      norm_num
    rw [pySum_all_eq 0 _ hz, mul_zero, pyDiv_eq, zero_div]

/-- With all-identical success rates on both sides, the pooled variances are
zero, the pooled standard error is `sqrt 0 = 0`, and the significance check
returns the experiment unchanged. -/
lemma checkSig_all_eq (sqrt : ℚ → ℚ) (h0 : sqrt 0 = 0)
    (cfg : EmergenceConfig) (e : ABTestExperiment) (now : Int) (ca ta : ℚ)
    (hc : ∀ m ∈ e.control_metrics, m.success_rate = ca)
    (ht : ∀ m ∈ e.treatment_metrics, m.success_rate = ta) :
    checkExperimentSignificance sqrt cfg e now = e := by
  unfold checkExperimentSignificance
  split
  · rfl
  · have hvc : pyVariance (e.control_metrics.map (fun m => m.success_rate)) = 0 := by
      refine pyVariance_all_eq ca _ ?_
      intro x hx
      obtain ⟨m, hm, rfl⟩ := List.mem_map.mp hx
      exact hc m hm
    have hvt : pyVariance (e.treatment_metrics.map (fun m => m.success_rate)) = 0 := by
      refine pyVariance_all_eq ta _ ?_
      intro x hx
      obtain ⟨m, hm, rfl⟩ := List.mem_map.mp hx
      exact ht m hm
    have hdz : ∀ n : ℚ, pyDiv 0 n = 0 := by
      intro n; rw [pyDiv_eq, zero_div]
    have hse : sqrt (pyAdd
        (pyDiv (if (e.control_metrics.map (fun m => m.success_rate)).length > 1 then
            pyVariance (e.control_metrics.map (fun m => m.success_rate)) else 0)
          (((e.control_metrics.map (fun m => m.success_rate)).length : Nat) : ℚ))
        (pyDiv (if (e.treatment_metrics.map (fun m => m.success_rate)).length > 1 then
            pyVariance (e.treatment_metrics.map (fun m => m.success_rate)) else 0)
          (((e.treatment_metrics.map (fun m => m.success_rate)).length : Nat) : ℚ))) = 0 := by
      rw [hvc, hvt, ite_self, ite_self, hdz, hdz]
      rw [show pyAdd 0 0 = 0 by rw [pyAdd_eq, add_zero]]
      exact h0
    simp only [hse]
    rw [if_pos ((pyEqQ_iff _ _).mpr rfl)]

/-- The C4 invariant: the experiment is still running with no winner and
zero confidence, and its recorded rates are all `0.80` / all `0.95`. -/
def c4Inv (st : EmergenceEngine) : Prop :=
  ∃ e, lookupA st.experiments "experiment-2" = some e ∧
    e.control_variant_id = "variant-0" ∧
    e.treatment_variant_id = "variant-1" ∧
    e.status = "running" ∧ e.winner = none ∧ e.confidence = 0 ∧
    (∀ m ∈ e.control_metrics, m.success_rate = mkRat 4 5) ∧
    (∀ m ∈ e.treatment_metrics, m.success_rate = mkRat 19 20)

lemma except_bind_ok {α β : Type} (x : α) (g : α → Except String β) :
    ((Except.ok x : Except String α) >>= g) = g x := rfl

lemma c4_step (sqrt : ℚ → ℚ) (h0 : sqrt 0 = 0) (st : EmergenceEngine)
    (hinv : c4Inv st) (r : String × PerformanceMetrics)
    (hr : r = ("variant-0", successMetric (mkRat 4 5)) ∨
          r = ("variant-1", successMetric (mkRat 19 20))) :
    ∃ st', (EmergenceEngine.record_experiment_metrics sqrt st "experiment-2"
        r.1 r.2 0).map Prod.fst = .ok st' ∧ c4Inv st' := by
  obtain ⟨e, hget, hcid, htid, hst, hw, hcf, hc, ht⟩ := hinv
  rcases hr with rfl | rfl
  · have hc' : ∀ m ∈ e.control_metrics ++ [successMetric (mkRat 4 5)],
        m.success_rate = mkRat 4 5 := by
      intro m hm
      rcases List.mem_append.mp hm with hm | hm
      · exact hc m hm
      · rw [List.mem_singleton.mp hm]; rfl
    refine ⟨{ st with experiments := insertA st.experiments "experiment-2" { e with control_metrics := e.control_metrics ++ [successMetric (mkRat 4 5)] } }, ?_, ?_⟩
    · unfold EmergenceEngine.record_experiment_metrics
      rw [hget]
      dsimp only
      rw [if_pos hcid.symm]
      rw [checkSig_all_eq sqrt h0 st.config { e with control_metrics := e.control_metrics ++ [successMetric (mkRat 4 5)] } 0 (mkRat 4 5) (mkRat 19 20) hc' ht]
      rfl
    · exact ⟨_, lookupA_insertA _ _ _, hcid, htid, hst, hw, hcf, hc', ht⟩
  · have ht' : ∀ m ∈ e.treatment_metrics ++ [successMetric (mkRat 19 20)],
        m.success_rate = mkRat 19 20 := by
      intro m hm
      rcases List.mem_append.mp hm with hm | hm
      · exact ht m hm
      · rw [List.mem_singleton.mp hm]; rfl
    refine ⟨{ st with experiments := insertA st.experiments "experiment-2" { e with treatment_metrics := e.treatment_metrics ++ [successMetric (mkRat 19 20)] } }, ?_, ?_⟩
    · unfold EmergenceEngine.record_experiment_metrics
      rw [hget]
      dsimp only
      have hne : ¬(("variant-1" : String) = e.control_variant_id) := by
        rw [hcid]; decide
      rw [if_neg hne, if_pos htid.symm]
      rw [checkSig_all_eq sqrt h0 st.config { e with treatment_metrics := e.treatment_metrics ++ [successMetric (mkRat 19 20)] } 0 (mkRat 4 5) (mkRat 19 20) hc ht']
      rfl
    · exact ⟨_, lookupA_insertA _ _ _, hcid, htid, hst, hw, hcf, hc, ht'⟩

lemma c4_fold (sqrt : ℚ → ℚ) (h0 : sqrt 0 = 0) :
    ∀ (recs : List (String × PerformanceMetrics)) (st : EmergenceEngine),
    c4Inv st →
    (∀ r ∈ recs, r = ("variant-0", successMetric (mkRat 4 5)) ∨
        r = ("variant-1", successMetric (mkRat 19 20))) →
    ∃ st', recs.foldlM (fun st r =>
        (EmergenceEngine.record_experiment_metrics sqrt st "experiment-2"
          r.1 r.2 0).map Prod.fst) st = .ok st' ∧ c4Inv st' := by
  intro recs
  induction recs with
  | nil => intro st hinv _; exact ⟨st, rfl, hinv⟩
  | cons r rest ih =>
      intro st hinv hall
      obtain ⟨st1, hstep, hinv1⟩ := c4_step sqrt h0 st hinv r
        (hall r (List.mem_cons_self r rest))
      obtain ⟨st', hfold, hinv'⟩ := ih st1 hinv1
        (fun x hx => hall x (List.mem_cons_of_mem r hx))
      refine ⟨st', ?_, hinv'⟩
      rw [List.foldlM_cons, hstep, except_bind_ok, hfold]

lemma c4Engine_inv : c4Inv c4Engine := by
  refine ⟨{ experiment_id := "experiment-2"
            control_variant_id := "variant-0"
            treatment_variant_id := "variant-1"
            started_at := 0
            ended_at := none
            traffic_split := mkRat 1 2
            control_metrics := []
            treatment_metrics := []
            winner := none
            confidence := 0
            status := "running" }, ?_, rfl, rfl, rfl, rfl, rfl, ?_, ?_⟩
  · decide
  · intro m hm; cases hm
  · intro m hm; cases hm

lemma c4Recs_all : ∀ r ∈ c4Recs,
    r = ("variant-0", successMetric (mkRat 4 5)) ∨
    r = ("variant-1", successMetric (mkRat 19 20)) := by
  intro r hr
  rcases List.mem_append.mp hr with hr | hr
  · exact Or.inl (List.eq_of_mem_replicate hr)
  · exact Or.inr (List.eq_of_mem_replicate hr)

/-- Claim C4 counterexample (evaluating the code on the claimed input with
`math.sqrt` interpreted by `mathSqrtModel`, which agrees with the real
square root at the only input the run produces, namely 0): after the
150 + 150 identical recordings the experiment status is still `running` —
not `completed` — with no winner and confidence 0, because every sample is
identical, so both variances are 0, the pooled standard error is 0, and
`_check_experiment_significance` returns early on its `se == 0` guard. -/
theorem ab_experiment_identical_rates_never_completes :
    ∃ st' e', c4Run mathSqrtModel = .ok st' ∧
      lookupA st'.experiments "experiment-2" = some e' ∧
      e'.status = "running" ∧ e'.winner = none ∧ e'.confidence = 0 := by
  obtain ⟨st', hrun, e', hget, _, _, hst, hw, hcf, -, -⟩ :=
    c4_fold mathSqrtModel rfl c4Recs c4Engine c4Engine_inv c4Recs_all
  exact ⟨st', e', hrun, hget, hst, hw, hcf⟩

/-- Claim C4 amended: with every recorded metric equal on each side (150
control at 0.80, 150 treatment at 0.95), the pooled standard error is zero
and the significance check never fires, so for every interpretation of
`math.sqrt` with `sqrt 0 = 0` the experiment remains `running` with winner
`None` and confidence `0.0` (it would need unequal samples to complete). -/
theorem ab_experiment_identical_rates_stays_running (sqrt : ℚ → ℚ)
    (h0 : sqrt 0 = 0) :
    ∃ st' e', c4Run sqrt = .ok st' ∧
      lookupA st'.experiments "experiment-2" = some e' ∧
      e'.status = "running" ∧ e'.winner = none ∧ e'.confidence = 0 := by
  obtain ⟨st', hrun, e', hget, _, _, hst, hw, hcf, -, -⟩ :=
    c4_fold sqrt h0 c4Recs c4Engine c4Engine_inv c4Recs_all
  exact ⟨st', e', hrun, hget, hst, hw, hcf⟩

/-- Witness for `ab_experiment_identical_rates_stays_running` at the
concrete square-root interpretation. -/
theorem ab_experiment_identical_rates_stays_running_witness :
    mathSqrtModel 0 = 0 ∧
    (∃ st' e', c4Run mathSqrtModel = .ok st' ∧
      lookupA st'.experiments "experiment-2" = some e' ∧
      e'.status = "running" ∧ e'.winner = none ∧ e'.confidence = 0) :=
  ⟨rfl, ab_experiment_identical_rates_stays_running mathSqrtModel rfl⟩

/-! ## Learning insights (`emergence.py`, `get_learning_insights`) -/

/-- Outcome of `get_learning_insights` when it returns normally: either the
no-data message or a report (the report branch is never reached, see
below). -/
inductive InsightsOutcome where
  | noData (message : String)
  | report
deriving DecidableEq, Repr

/-- `EmergenceEngine.get_learning_insights`: with no outcomes it returns the
no-data message; otherwise it computes `successful`, then evaluates
`VariantStatus.FAILED` — an enum member that does not exist — which raises
`AttributeError` before anything is returned. -/
def getLearningInsights (outcomes : List VariantOutcome) :
    Except String InsightsOutcome :=
  if outcomes.isEmpty then .ok (.noData "No historical data available")
  else
    let _successful := outcomes.filter (fun o => o.final_status = VariantStatus.active)
    match variantStatusMember "FAILED" with
    | none => .error "AttributeError: FAILED is not a member of VariantStatus"
    | some failedStatus =>
        let _failed := outcomes.filter (fun o =>
          o.final_status = VariantStatus.rolled_back ∨ o.final_status = failedStatus)
        .ok .report

/-- Claim C10: whenever the outcomes list is non-empty,
`get_learning_insights` raises (the reference to the nonexistent
`VariantStatus.FAILED`); it returns the no-data message exactly when no
outcomes have been recorded. -/
theorem get_learning_insights_raises_on_outcomes
    (outcomes : List VariantOutcome) :
    (outcomes = [] →
      getLearningInsights outcomes = .ok (.noData "No historical data available")) ∧
    (outcomes ≠ [] →
      getLearningInsights outcomes =
        .error "AttributeError: FAILED is not a member of VariantStatus") := by
  constructor
  · intro h; subst h; rfl
  · intro h
    unfold getLearningInsights
    rw [if_neg (by simpa [List.isEmpty_iff] using h)]
    rfl

/-- A concrete recorded outcome (as `rollback` would record it) for the C10
witness. -/
def c10Outcome : VariantOutcome :=
  { variant_id := "variant-0"
    changes := [("x", "1")]
    final_status := .canary
    success_rate := mkRat 1 2
    duration_hours := 0
    rollback_count := 1
    tags := []
    timestamp := 0 }

/-- Witness for `get_learning_insights_raises_on_outcomes` on a singleton
outcome list (and on the empty list). -/
theorem get_learning_insights_raises_on_outcomes_witness :
    ([c10Outcome] ≠ ([] : List VariantOutcome) ∧
      getLearningInsights [c10Outcome] =
        .error "AttributeError: FAILED is not a member of VariantStatus") ∧
    (([] : List VariantOutcome) = [] ∧
      getLearningInsights [] = .ok (.noData "No historical data available")) :=
  ⟨⟨by decide, (get_learning_insights_raises_on_outcomes [c10Outcome]).2 (by decide)⟩,
   ⟨rfl, (get_learning_insights_raises_on_outcomes []).1 rfl⟩⟩

/-! ## Alignment engine (`alignment.py`)

Details dicts and recommendation strings are omitted throughout: no claim
reads them, and they do not feed back into any status or confidence. -/

/-- `AlignmentStatus` enum. -/
inductive AlignmentStatus where
  | aligned
  | misaligned
  | partial_
  | unknown
deriving DecidableEq, Repr

/-- A Python value stored in `capabilities`/`context_params` dicts. -/
inductive PVal where
  | s (v : String)
  | i (v : Int)
  | b (v : Bool)
  | q (v : ℚ)
deriving DecidableEq, Repr

/-- A goal dict; the engine reads `goal.get("type", "unknown")` and
`goal.get("description", "")`. -/
structure Goal where
  gtype : Option String
  gdescription : Option String
deriving DecidableEq, Repr

/-- `goal.get("type", "unknown")`. -/
def Goal.typeOf (g : Goal) : String := g.gtype.getD "unknown"

/-- `goal.get("description", "")`. -/
def Goal.descriptionOf (g : Goal) : String := g.gdescription.getD ""

/-- `AgentContext` dataclass (fields the engine reads;
`communication_preferences` is never consulted). -/
structure AgentContext where
  agent_id : String
  capabilities : List (String × PVal)
  knowledge_domains : List String
  goals : List Goal
  terminology : List (String × String)
  assumptions : List String
  context_params : List (String × PVal)
  domain_expertise_levels : List (String × ℚ)
  priority_goals : List String
deriving DecidableEq, Repr

/-- An agent context with everything empty but the id — handy base. -/
def AgentContext.bare (aid : String) : AgentContext :=
  { agent_id := aid
    capabilities := []
    knowledge_domains := []
    goals := []
    terminology := []
    assumptions := []
    context_params := []
    domain_expertise_levels := []
    priority_goals := [] }

/-- `StrategyWeight` dataclass. -/
structure StrategyWeight where
  knowledge : ℚ
  goals : ℚ
  terminology : ℚ
  assumptions : ℚ
  context : ℚ
deriving DecidableEq, Repr

/-- `StrategyWeight()` defaults: 0.25, 0.25, 0.20, 0.15, 0.15. -/
def StrategyWeight.defaults : StrategyWeight :=
  { knowledge := mkRat 25 100
    goals := mkRat 25 100
    terminology := mkRat 20 100
    assumptions := mkRat 15 100
    context := mkRat 15 100 }

/-- An alignment verification result (status and confidence; details and
recommendations omitted, see the section comment). -/
structure AlignmentResult where
  status : AlignmentStatus
  confidence : ℚ
deriving DecidableEq, Repr

/-- `AlignmentEngine.DOMAIN_HIERARCHY`. -/
def DOMAIN_HIERARCHY : List (String × List String) :=
  [("computer_science", ["programming", "software_engineering", "algorithms", "data_structures", "web_development", "machine_learning", "ai", "databases"]),
   ("machine_learning", ["deep_learning", "neural_networks", "nlp", "computer_vision", "reinforcement_learning", "ai"]),
   ("data_science", ["statistics", "machine_learning", "data_analysis", "visualization", "python", "r"]),
   ("web_development", ["frontend", "backend", "javascript", "html", "css", "react", "nodejs", "apis"]),
   ("devops", ["docker", "kubernetes", "ci_cd", "cloud", "aws", "infrastructure"]),
   ("science", ["biology", "chemistry", "physics", "mathematics", "research"]),
   ("business", ["management", "finance", "marketing", "strategy", "operations"]),
   ("writing", ["technical_writing", "documentation", "content", "copywriting", "editing"])]

/-- The reverse `_domain_index` built in `__init__`: dict assignment in
insertion order, so later parents overwrite earlier ones for duplicated
children. -/
def domainIndexPairs : List (String × String) :=
  DOMAIN_HIERARCHY.foldl
    (fun acc p => p.2.foldl (fun acc2 c => insertA acc2 c p.1) acc) []

/-- `AlignmentEngine.DEFAULT_GOAL_COMPATIBILITY`: a dict from goal-type
NAME to a nested dict of compatibilities (this nested shape is exactly the
source's). -/
def DEFAULT_GOAL_COMPATIBILITY : List (String × List (String × ℚ)) :=
  [("assistance", [("assistance", 1), ("education", mkRat 9 10), ("analysis", mkRat 8 10), ("research", mkRat 8 10), ("documentation", mkRat 7 10)]),
   ("education", [("education", 1), ("assistance", mkRat 9 10), ("documentation", mkRat 8 10), ("research", mkRat 7 10)]),
   ("analysis", [("analysis", 1), ("research", mkRat 9 10), ("assistance", mkRat 8 10), ("documentation", mkRat 7 10)]),
   ("research", [("research", 1), ("analysis", mkRat 9 10), ("education", mkRat 7 10), ("documentation", mkRat 8 10)]),
   ("documentation", [("documentation", 1), ("education", mkRat 8 10), ("research", mkRat 8 10), ("assistance", mkRat 7 10)]),
   ("automation", [("automation", 1), ("efficiency", mkRat 9 10), ("assistance", mkRat 7 10)]),
   ("efficiency", [("efficiency", 1), ("automation", mkRat 9 10), ("optimization", mkRat 8 10)]),
   ("optimization", [("optimization", 1), ("efficiency", mkRat 8 10), ("analysis", mkRat 7 10)]),
   ("speed", [("quality", mkRat 4 10), ("thoroughness", mkRat 3 10)]),
   ("quality", [("speed", mkRat 4 10)]),
   ("thoroughness", [("speed", mkRat 3 10), ("brevity", mkRat 3 10)]),
   ("brevity", [("thoroughness", mkRat 3 10)]),
   ("innovation", [("stability", mkRat 4 10)]),
   ("stability", [("innovation", mkRat 4 10)])]

/-- `AlignmentEngine.SYNONYMS`. -/
def SYNONYMS : List (String × List String) :=
  [("model", ["algorithm", "system", "network", "classifier"]),
   ("data", ["information", "dataset", "records", "input"]),
   ("process", ["procedure", "method", "workflow", "operation"]),
   ("output", ["result", "response", "return", "product"]),
   ("error", ["bug", "issue", "fault", "problem", "exception"]),
   ("function", ["method", "procedure", "routine", "operation"]),
   ("user", ["client", "customer", "consumer", "end-user"]),
   ("api", ["interface", "endpoint", "service"])]

/-- `AlignmentEngine.ANTONYMS`. -/
def ANTONYMS : List (String × List String) :=
  [("fast", ["slow"]),
   ("simple", ["complex", "complicated"]),
   ("synchronous", ["asynchronous"]),
   ("public", ["private"]),
   ("required", ["optional"]),
   ("enabled", ["disabled"]),
   ("allow", ["deny", "block", "prevent"]),
   ("include", ["exclude"]),
   ("start", ["stop", "end"]),
   ("create", ["delete", "remove"])]

/-- The `AlignmentEngine` mutable state (`_domain_index` is the constant
`domainIndexPairs`; `terminology_mappings` is never read). -/
structure AlignmentEngine where
  registered_agents : List (String × AgentContext)
  strategy_weights : StrategyWeight
  goal_compatibility_matrix : List (String × List (String × ℚ))
  word_document_freq : List (String × Nat)
deriving DecidableEq, Repr

/-- `AlignmentEngine()` with defaults. -/
def AlignmentEngine.fresh : AlignmentEngine :=
  { registered_agents := []
    strategy_weights := StrategyWeight.defaults
    goal_compatibility_matrix := DEFAULT_GOAL_COMPATIBILITY
    word_document_freq := [] }

/-! ### Tokenisation (`_tokenize`) -/

/-- ASCII `str.lower()` on one character (all engine text is ASCII). -/
def charLower (c : Char) : Char :=
  if 'A' ≤ c ∧ c ≤ 'Z' then Char.ofNat (c.toNat + 32) else c

/-- `text.lower()` for ASCII text. -/
def pyLower (s : String) : String := String.mk (s.toList.map charLower)

/-- `s.replace(" ", "_")` (single-character replacement). -/
def underscoreSpaces (s : String) : String :=
  String.mk (s.toList.map (fun c => if c = ' ' then '_' else c))

/-- A character counted by Python's `\w` after lowercasing ASCII text. -/
def isWordChar (c : Char) : Bool :=
  decide (('a' ≤ c ∧ c ≤ 'z') ∨ ('0' ≤ c ∧ c ≤ '9') ∨ c = '_')

/-- Maximal runs of word characters in a character list. -/
def wordRuns : List Char → List (List Char)
  | [] => []
  | c :: cs =>
      let rest := wordRuns cs
      if isWordChar c then
        match cs with
        | [] => [[c]]
        | c' :: _ =>
            if isWordChar c' then
              match rest with
              | run :: tail => (c :: run) :: tail
              | [] => [[c]]
            else [c] :: rest
      else rest

/-- `re.findall(r"\b[a-z0-9]+\b", text.lower())`:  `\b` only fires at a
word/non-word boundary and `_` is a word character, so a maximal
word-character run is matched exactly when it contains no underscore. -/
def pyFindallTokens (text : String) : List String :=
  ((wordRuns (pyLower text).toList).filter (fun run => ¬run.contains '_')).map
    (fun run => String.mk run)

/-- The stopword list of `_tokenize`. -/
def STOPWORDS : List String :=
  ["the", "a", "an", "is", "are", "was", "were", "be", "been",
   "being", "have", "has", "had", "do", "does", "did", "will",
   "would", "could", "should", "may", "might", "must", "shall",
   "can", "need", "dare", "ought", "used", "to", "of", "in",
   "for", "on", "with", "at", "by", "from", "as", "into",
   "through", "during", "before", "after", "above", "below",
   "between", "under", "again", "further", "then", "once",
   "and", "but", "or", "nor", "so", "yet", "both", "either",
   "neither", "not", "only", "own", "same", "than", "too",
   "very", "just", "also"]

/-- De-duplication keeping first occurrences (Python set membership; every
use below is insensitive to iteration order). -/
def dedupAux : List String → List String → List String
  | [], _ => []
  | x :: xs, seen =>
      if x ∈ seen then dedupAux xs seen else x :: dedupAux xs (x :: seen)

/-- Set of a string list, as a duplicate-free list. -/
def dedupF (l : List String) : List String := dedupAux l []

/-- `AlignmentEngine._tokenize`: word tokens, stopwords and short words
removed, as a set. -/
def tokenize (text : String) : List String :=
  dedupF ((pyFindallTokens text).filter
    (fun w => ¬(w ∈ STOPWORDS) ∧ w.length > 2))

/-- Set intersection (first operand de-duplicated). -/
def interS (a b : List String) : List String := (dedupF a).filter (· ∈ b)

/-- Set union. -/
def unionS (a b : List String) : List String := dedupF (a ++ b)

/-- Set difference. -/
def diffS (a b : List String) : List String := (dedupF a).filter (fun x => ¬(x ∈ b))

/-- `AlignmentEngine._expand_with_synonyms` (as a set). -/
def expandWithSynonyms (words : List String) : List String :=
  dedupF (words ++ words.foldl (fun acc w =>
    acc ++ ((lookupA SYNONYMS w).getD []) ++
      (SYNONYMS.foldl (fun acc2 p =>
        if w ∈ p.2 then acc2 ++ (p.1 :: p.2) else acc2) [])) [])

/-- `AlignmentEngine._semantic_similarity`.  `log` interprets `math.log`
(used only in the IDF bonus, which every theorem below either avoids or
quantifies over). -/
def semanticSimilarity (log : ℚ → ℚ) (eng : AlignmentEngine)
    (text_a text_b : String) : ℚ :=
  if text_a = "" ∨ text_b = "" then 0
  else
    let words_a := tokenize text_a
    let words_b := tokenize text_b
    if words_a = [] ∨ words_b = [] then 0
    else
      let expanded_a := expandWithSynonyms words_a
      let expanded_b := expandWithSynonyms words_b
      let intersection := interS expanded_a expanded_b
      let union := unionS expanded_a expanded_b
      if union = [] then 0
      else
        let base_similarity := pyDiv ((intersection.length : Nat) : ℚ) ((union.length : Nat) : ℚ)
        let exact_matches := interS words_a words_b
        let exact_bonus := pyMul (pyDiv ((exact_matches.length : Nat) : ℚ)
          (((max words_a.length words_b.length : Nat)) : ℚ)) (mkRat 2 10)
        let weighted_score := pySum (intersection.map (fun word =>
          let doc_freq := (lookupA eng.word_document_freq word).getD 1
          let total_docs := max eng.registered_agents.length 1
          log (pyAdd (pyDiv ((total_docs : Nat) : ℚ) ((doc_freq : Nat) : ℚ)) 1)))
        let weighted_score :=
          if intersection ≠ [] then
            pyMin (pyDiv (pyDiv weighted_score ((intersection.length : Nat) : ℚ)) 3) (mkRat 3 10)
          else 0
        pyMin 1 (pyAdd (pyAdd base_similarity exact_bonus) weighted_score)

/-- `AlignmentEngine._domain_similarity`. -/
def domainSimilarity (log : ℚ → ℚ) (eng : AlignmentEngine)
    (domain_a domain_b : String) : ℚ :=
  if domain_a = domain_b then 1
  else
    let a_lower := underscoreSpaces (pyLower domain_a)
    let b_lower := underscoreSpaces (pyLower domain_b)
    if (lookupA domainIndexPairs a_lower) = some b_lower then mkRat 8 10
    else if (lookupA domainIndexPairs b_lower) = some a_lower then mkRat 8 10
    else
      let parent_a := (lookupA domainIndexPairs a_lower).getD a_lower
      let parent_b := (lookupA domainIndexPairs b_lower).getD b_lower
      if parent_a = parent_b then mkRat 6 10
      else if DOMAIN_HIERARCHY.any (fun p => a_lower ∈ p.2 ∧ b_lower ∈ p.2) then
        mkRat 5 10
      else pyMul (semanticSimilarity log eng domain_a domain_b) (mkRat 4 10)

/-- `AlignmentEngine.verify_knowledge`.  `covered_by` lists are detail-only
and omitted; the booleans they stem from are kept. -/
def verifyKnowledge (log : ℚ → ℚ) (eng : AlignmentEngine)
    (a b : AgentContext) (required_domains : Option (List String)) :
    AlignmentResult :=
  let domains_a := dedupF a.knowledge_domains
  let domains_b := dedupF b.knowledge_domains
  let shared := interS domains_a domains_b
  let related_sims := (diffS domains_a shared).foldl (fun acc da =>
    acc ++ ((diffS domains_b shared).filterMap (fun db =>
      let s := domainSimilarity log eng da db
      if pyLe (mkRat 5 10) s then some s else none))) []
  let all_domains := unionS domains_a domains_b
  let overlap_ratio :=
    if all_domains ≠ [] then
      let exact_ratio := pyDiv ((shared.length : Nat) : ℚ) ((all_domains.length : Nat) : ℚ)
      let related_bonus := pyMul (pyDiv (pySum related_sims)
        (((max all_domains.length 1 : Nat)) : ℚ)) (mkRat 5 10)
      pyMin 1 (pyAdd exact_ratio related_bonus)
    else 0
  let rdList := required_domains.getD []
  let hasCover := fun (domains : List String) (domain : String) =>
    decide (domain ∈ domains) ||
      domains.any (fun d => pyLe (mkRat 6 10) (domainSimilarity log eng domain d))
  let missing_a := rdList.filter (fun d => !(hasCover domains_a d))
  let missing_b := rdList.filter (fun d => !(hasCover domains_b d))
  let status :=
    if rdList ≠ [] ∧ missing_a ≠ [] ∧ missing_b ≠ [] then
      AlignmentStatus.misaligned
    else if rdList ≠ [] ∧ (missing_a ≠ [] ∨ missing_b ≠ []) then
      AlignmentStatus.partial_
    else if pyLt (mkRat 5 10) overlap_ratio then AlignmentStatus.aligned
    else if pyLt (mkRat 2 10) overlap_ratio then AlignmentStatus.partial_
    else AlignmentStatus.misaligned
  { status := status, confidence := overlap_ratio }

/-- The value of the `verify_goals` compatibility lookup: the matrix maps a
bare goal-type name to a NESTED dict, but `verify_goals` looks up the
composite key `"a:b"` (then `"b:a"`, then the float default `0.5`).  A hit
would hand back the nested dict itself (a Python `dict`), so the value is
either a dict or a float. -/
inductive PyCompatVal where
  | table (t : List (String × ℚ))
  | num (q : ℚ)
deriving DecidableEq, Repr

/-- The `verify_goals` compatibility lookup
(`matrix.get(f"a:b", matrix.get(f"b:a", 0.5))`). -/
def goalCompatLookup (matrix : List (String × List (String × ℚ)))
    (ta tb : String) : PyCompatVal :=
  match lookupA matrix (ta ++ ":" ++ tb) with
  | some t => .table t
  | none =>
      match lookupA matrix (tb ++ ":" ++ ta) with
      | some t => .table t
      | none => .num (mkRat 5 10)

/-- `verify_goals` output: the alignment result plus the numeric details
the claims reference. -/
structure GoalsResult where
  result : AlignmentResult
  conflict_count : Nat
  alignment_count : Nat
  total_pairs : Nat
  conflict_frac : ℚ
  alignment_frac : ℚ
deriving DecidableEq, Repr

/-- `AlignmentEngine.verify_goals`.  Comparing a dict with a float raises
`TypeError` in Python, hence the `Except`. -/
def verifyGoals (eng : AlignmentEngine) (a b : AgentContext) :
    Except String GoalsResult :=
  if a.goals = [] ∨ b.goals = [] then
    .ok { result := { status := .unknown, confidence := 0 }
          conflict_count := 0, alignment_count := 0, total_pairs := 0
          conflict_frac := 0, alignment_frac := 0 }
  else do
    let pairs := a.goals.foldr (fun ga acc =>
      (b.goals.map (fun gb => (ga.typeOf, gb.typeOf))) ++ acc) []
    let counts ← pairs.foldlM (fun (acc : Nat × Nat) p => do
      match goalCompatLookup eng.goal_compatibility_matrix p.1 p.2 with
      | .table _ =>
          throw "TypeError: comparison not supported between dict and float"
      | .num q =>
          if pyLt q (mkRat 3 10) then pure (acc.1 + 1, acc.2)
          else if pyLt (mkRat 7 10) q then pure (acc.1, acc.2 + 1)
          else pure acc) ((0, 0) : Nat × Nat)
    let total_pairs := a.goals.length * b.goals.length
    let conflict_frac :=
      if total_pairs ≠ 0 then pyDiv ((counts.1 : Nat) : ℚ) ((total_pairs : Nat) : ℚ) else 0
    let alignment_frac :=
      if total_pairs ≠ 0 then pyDiv ((counts.2 : Nat) : ℚ) ((total_pairs : Nat) : ℚ) else 0
    let status :=
      if pyLt (mkRat 3 10) conflict_frac then AlignmentStatus.misaligned
      else if pyLt (mkRat 5 10) alignment_frac then AlignmentStatus.aligned
      else AlignmentStatus.partial_
    pure { result := { status := status, confidence := alignment_frac }
           conflict_count := counts.1, alignment_count := counts.2
           total_pairs := total_pairs
           conflict_frac := conflict_frac, alignment_frac := alignment_frac }

/-- `AlignmentEngine.align_terminology` (suggested mappings are detail-only
and omitted; they never influence status or confidence). -/
def alignTerminology (_eng : AlignmentEngine) (a b : AgentContext) :
    AlignmentResult :=
  let terms_a := a.terminology.map Prod.fst
  let terms_b := b.terminology.map Prod.fst
  let shared_terms := interS terms_a terms_b
  let conflicts := shared_terms.filter (fun t =>
    pyLower ((lookupA a.terminology t).getD "") ≠
      pyLower ((lookupA b.terminology t).getD ""))
  let conflict_frac :=
    if shared_terms ≠ [] then
      pyDiv ((conflicts.length : Nat) : ℚ) ((shared_terms.length : Nat) : ℚ)
    else 0
  let status :=
    if pyLt (mkRat 3 10) conflict_frac then AlignmentStatus.misaligned
    else if pyLt (mkRat 1 10) conflict_frac then AlignmentStatus.partial_
    else AlignmentStatus.aligned
  { status := status, confidence := pySub 1 conflict_frac }

/-- An apostrophe, as a string (ASCII 39). -/
def apos : String := String.mk [Char.ofNat 39]

/-- The negation word list of `_assumptions_conflict`. -/
def NEGATIONS : List String :=
  ["not", "never", "no", "cannot",
   "won" ++ apos ++ "t", "shouldn" ++ apos ++ "t", "don" ++ apos ++ "t",
   "doesn" ++ apos ++ "t", "isn" ++ apos ++ "t", "aren" ++ apos ++ "t"]

/-- Contiguous sublist test (structural, over characters). -/
def containsSub (sub : List Char) : List Char → Bool
  | [] => sub.isEmpty
  | c :: t => sub.isPrefixOf (c :: t) || containsSub sub t

/-- Python substring containment `sub in s`. -/
def strContains (s sub : String) : Bool := containsSub sub.toList s.toList

/-- `AlignmentEngine._assumptions_conflict`. -/
def assumptionsConflict (log : ℚ → ℚ) (eng : AlignmentEngine)
    (assumption_a assumption_b : String) : Bool :=
  let a_lower := pyLower assumption_a
  let b_lower := pyLower assumption_b
  let words_a := tokenize assumption_a
  let words_b := tokenize assumption_b
  let antonymHit := words_a.any (fun wa =>
    ((lookupA ANTONYMS wa).getD []).any (fun ant => decide (ant ∈ words_b)) ||
    ANTONYMS.any (fun p => decide (wa ∈ p.2) && decide (p.1 ∈ words_b)))
  if antonymHit then true
  else
    let a_has := NEGATIONS.any (fun n => strContains a_lower n)
    let b_has := NEGATIONS.any (fun n => strContains b_lower n)
    if a_has ≠ b_has then
      let clean := fun (t : String) => NEGATIONS.foldl
        (fun acc n => (acc.replace (n ++ " ") "").replace (" " ++ n) "") t
      pyLt (mkRat 5 10) (semanticSimilarity log eng (clean a_lower) (clean b_lower))
    else false

/-- `AlignmentEngine.verify_assumptions`. -/
def verifyAssumptions (log : ℚ → ℚ) (eng : AlignmentEngine)
    (a b : AgentContext) : AlignmentResult :=
  let assumptions_a := dedupF a.assumptions
  let assumptions_b := dedupF b.assumptions
  let shared := interS assumptions_a assumptions_b
  let unique_a := diffS assumptions_a assumptions_b
  let unique_b := diffS assumptions_b assumptions_a
  let all_assumptions := unionS assumptions_a assumptions_b
  let alignment_frac :=
    if all_assumptions ≠ [] then
      pyDiv ((shared.length : Nat) : ℚ) ((all_assumptions.length : Nat) : ℚ)
    else 1
  let conflictsExist := unique_a.any (fun x =>
    unique_b.any (fun y => assumptionsConflict log eng x y))
  let status :=
    if conflictsExist then AlignmentStatus.misaligned
    else if pyLt (mkRat 7 10) alignment_frac then AlignmentStatus.aligned
    else if pyLt (mkRat 3 10) alignment_frac then AlignmentStatus.partial_
    else AlignmentStatus.misaligned
  { status := status, confidence := alignment_frac }

/-- `AlignmentEngine.sync_context`. -/
def syncContext (a b : AgentContext)
    (required_params : Option (List String)) : AlignmentResult :=
  let params_a := a.context_params
  let params_b := b.context_params
  let all_params := unionS (params_a.map Prod.fst) (params_b.map Prod.fst)
  let matched := all_params.filter (fun p =>
    match lookupA params_a p, lookupA params_b p with
    | some va, some vb => decide (va = vb)
    | _, _ => false)
  let mismatchExists := all_params.any (fun p =>
    match lookupA params_a p, lookupA params_b p with
    | some va, some vb => decide (va ≠ vb)
    | _, _ => false)
  let required_missing := (required_params.getD []).filter (fun p =>
    lookupA params_a p = none ∨ lookupA params_b p = none)
  let sync_frac :=
    if all_params.length ≠ 0 then
      pyDiv ((matched.length : Nat) : ℚ) ((all_params.length : Nat) : ℚ)
    else 1
  let status :=
    if required_missing ≠ [] then AlignmentStatus.misaligned
    else if mismatchExists then AlignmentStatus.partial_
    else if pyLt (mkRat 8 10) sync_frac then AlignmentStatus.aligned
    else AlignmentStatus.partial_
  { status := status, confidence := sync_frac }

/-- `AlignmentEngine._calculate_weighted_alignment` over the five named
results (all five names hit the weights dict, so the `0.2` default is
unreachable; the string statuses are modelled by the enum directly). -/
def calculateWeightedAlignment (w : StrategyWeight)
    (k g t asm c : AlignmentResult) : AlignmentStatus × ℚ :=
  let statusScore := fun (s : AlignmentStatus) =>
    match s with
    | .aligned => (1 : ℚ)
    | .partial_ => mkRat 5 10
    | .misaligned => 0
    | .unknown => mkRat 25 100
  let combined := fun (r : AlignmentResult) (wt : ℚ) =>
    pyMul (pyAdd (pyMul (statusScore r.status) (mkRat 6 10))
      (pyMul r.confidence (mkRat 4 10))) wt
  let total_score := pySum [combined k w.knowledge, combined g w.goals,
    combined t w.terminology, combined asm w.assumptions, combined c w.context]
  let total_weight := pySum [w.knowledge, w.goals, w.terminology,
    w.assumptions, w.context]
  if pyEqQ total_weight 0 then (.unknown, 0)
  else
    let final_score := pyDiv total_score total_weight
    if pyLe (mkRat 75 100) final_score then (.aligned, final_score)
    else if pyLe (mkRat 45 100) final_score then (.partial_, final_score)
    else (.misaligned, final_score)

/-- The six entries of the dict returned by `full_alignment_check`, in
insertion order (five strategies plus `_summary`). -/
structure FullResults where
  knowledge : AlignmentResult
  goals : AlignmentResult
  terminology : AlignmentResult
  assumptions : AlignmentResult
  context : AlignmentResult
  summary : AlignmentResult
deriving DecidableEq, Repr

/-- `results.values()` of the full check — six entries, `_summary`
included. -/
def FullResults.resultsList (r : FullResults) : List AlignmentResult :=
  [r.knowledge, r.goals, r.terminology, r.assumptions, r.context, r.summary]

/-- `AlignmentEngine.full_alignment_check`. -/
def fullAlignmentCheck (log : ℚ → ℚ) (eng : AlignmentEngine)
    (a b : AgentContext) (required_domains required_params : Option (List String)) :
    Except String FullResults := do
  let knowledge := verifyKnowledge log eng a b required_domains
  let goalsR ← verifyGoals eng a b
  let terminology := alignTerminology eng a b
  let assumptions := verifyAssumptions log eng a b
  let context := syncContext a b required_params
  let (ostatus, oscore) := calculateWeightedAlignment eng.strategy_weights
    knowledge goalsR.result terminology assumptions context
  pure { knowledge := knowledge, goals := goalsR.result
         terminology := terminology, assumptions := assumptions
         context := context
         summary := { status := ostatus, confidence := oscore } }

/-- `AlignmentEngine._update_word_frequencies`. -/
def updateWordFrequencies (freq : List (String × Nat)) (ctx : AgentContext) :
    List (String × Nat) :=
  let all_text := String.intercalate " "
    [String.intercalate " " ctx.knowledge_domains,
     String.intercalate " " (ctx.goals.map Goal.descriptionOf),
     String.intercalate " " (ctx.terminology.map Prod.snd),
     String.intercalate " " ctx.assumptions]
  (tokenize all_text).foldl
    (fun f w => insertA f w ((lookupA f w).getD 0 + 1)) freq

/-- `AlignmentEngine.register_agent`. -/
def AlignmentEngine.register_agent (eng : AlignmentEngine)
    (ctx : AgentContext) : AlignmentEngine :=
  { eng with registered_agents := insertA eng.registered_agents ctx.agent_id ctx,
             word_document_freq := updateWordFrequencies eng.word_document_freq ctx }

/-! ## Orchestrator (`orchestrator.py`) -/

/-- `OrchestratorConfig` dataclass. -/
structure OrchestratorConfig where
  min_alignment_confidence : ℚ
  required_aligned_strategies : Nat
  alignment_retry_limit : Nat
  negotiation_timeout_ms : Int
  auto_accept_threshold : ℚ
  enable_auto_evolution : Bool
  evolution_check_interval_ms : Int
  min_requests_before_evolution : Nat
  require_alignment_for_negotiation : Bool
  require_negotiation_for_communication : Bool
deriving DecidableEq, Repr

/-- `OrchestratorConfig()` defaults. -/
def OrchestratorConfig.defaults : OrchestratorConfig :=
  { min_alignment_confidence := mkRat 6 10
    required_aligned_strategies := 3
    alignment_retry_limit := 3
    negotiation_timeout_ms := 30000
    auto_accept_threshold := mkRat 9 10
    enable_auto_evolution := true
    evolution_check_interval_ms := 60000
    min_requests_before_evolution := 100
    require_alignment_for_negotiation := true
    require_negotiation_for_communication := true }

/-- `WorkflowState` enum (orchestrator). -/
inductive WorkflowState where
  | pending
  | aligning
  | negotiating
  | active
  | evolving
  | suspended
  | completed
  | failed
deriving DecidableEq, Repr

/-- `WorkflowMetrics` (wall-clock durations omitted — they never feed back
into control flow). -/
structure WorkflowMetrics where
  alignment_attempts : Nat
  negotiation_attempts : Nat
  alignment_score : ℚ
  success : Bool
deriving DecidableEq, Repr

/-- `CollaborationSession` dataclass; the metadata dict is modelled by the
`failure_reason` entry the orchestrator writes. -/
structure CollaborationSession where
  session_id : String
  agent_a_id : String
  agent_b_id : String
  state : WorkflowState
  alignment_results : Option FullResults
  negotiation_session : Option NegotiationSession
  active_variant_id : Option String
  metrics : WorkflowMetrics
  meta_failure_reason : Option String
deriving DecidableEq, Repr

/-- The `XenoCommOrchestrator` mutable state. -/
structure Orchestrator where
  config : OrchestratorConfig
  alignment : AlignmentEngine
  negotiation : NegotiationEngine
  emergence : EmergenceEngine
  sessions : List (String × CollaborationSession)
  agent_registry : List (String × AgentContext)
  next_id : Nat
deriving DecidableEq, Repr

/-- `XenoCommOrchestrator()` with all defaults. -/
def Orchestrator.fresh : Orchestrator :=
  { config := OrchestratorConfig.defaults
    alignment := AlignmentEngine.fresh
    negotiation := NegotiationEngine.fresh
    emergence := EmergenceEngine.fresh
    sessions := []
    agent_registry := []
    next_id := 0 }

/-- `XenoCommOrchestrator.register_agent`. -/
def Orchestrator.register_agent (orch : Orchestrator) (ctx : AgentContext) :
    Orchestrator :=
  { orch with agent_registry := insertA orch.agent_registry ctx.agent_id ctx,
              alignment := orch.alignment.register_agent ctx }

/-- `XenoCommOrchestrator._optimize_params_for_agents`. -/
def optimizeParamsForAgents (a b : AgentContext) (base : NegotiableParams) :
    NegotiableParams :=
  let shared_caps := interS (a.capabilities.map Prod.fst) (b.capabilities.map Prod.fst)
  let params := base
  let params := if "msgpack" ∈ shared_caps then
    { params with data_format := "msgpack", compression := none } else params
  let params := if "high_throughput" ∈ shared_caps then
    { params with max_message_size := 10 * 1024 * 1024 } else params
  let params := if "streaming" ∈ shared_caps then
    { params with custom_params := insertA params.custom_params "streaming_enabled" "True" }
    else params
  params

/-- `aligned_count` as `initiate_collaboration` computes it: over ALL SIX
entries of the full-check dict, the `_summary` included. -/
def alignedCount (r : FullResults) : Nat :=
  (r.resultsList.filter (fun x => x.status = AlignmentStatus.aligned)).length

/-- `partial_count`, likewise over all six entries. -/
def partialCount (r : FullResults) : Nat :=
  (r.resultsList.filter (fun x => x.status = AlignmentStatus.partial_)).length

/-- `session.metrics.alignment_score = (aligned + 0.5*partial) /
len(alignment_results)` — the denominator is 6, not 5. -/
def alignmentScoreOf (r : FullResults) : ℚ :=
  pyDiv (pyAdd ((alignedCount r : Nat) : ℚ)
    (pyMul (mkRat 5 10) ((partialCount r : Nat) : ℚ)))
    ((r.resultsList.length : Nat) : ℚ)

/-- `XenoCommOrchestrator.initiate_collaboration`.  The failure gate is the
source's nested conditional: the session is failed only when
`require_alignment_for_negotiation` holds AND `aligned_count <
required_aligned_strategies` AND `alignment_score <
min_alignment_confidence`; otherwise negotiation is initiated and the
session ends `active`. -/
def Orchestrator.initiate_collaboration (log : ℚ → ℚ) (orch : Orchestrator)
    (agent_a_id agent_b_id : String)
    (required_domains : Option (List String))
    (proposed_params : Option NegotiableParams) (now : Int) :
    Except String (Orchestrator × CollaborationSession) :=
  match lookupA orch.agent_registry agent_a_id with
  | none => .error ("Agent " ++ agent_a_id ++ " not registered")
  | some agent_a =>
  match lookupA orch.agent_registry agent_b_id with
  | none => .error ("Agent " ++ agent_b_id ++ " not registered")
  | some agent_b =>
  match fullAlignmentCheck log orch.alignment agent_a agent_b required_domains none with
  | .error e => .error e
  | .ok alignment_results =>
      let sid := "collab-" ++ toString orch.next_id
      let aligned_count := alignedCount alignment_results
      let score := alignmentScoreOf alignment_results
      let base : CollaborationSession :=
        { session_id := sid
          agent_a_id := agent_a_id
          agent_b_id := agent_b_id
          state := .aligning
          alignment_results := some alignment_results
          negotiation_session := none
          active_variant_id := none
          metrics := { alignment_attempts := 1, negotiation_attempts := 0,
                       alignment_score := score, success := false }
          meta_failure_reason := none }
      let proceed : Except String (Orchestrator × CollaborationSession) :=
        let params := proposed_params.getD NegotiableParams.defaults
        let params := if pyLe orch.config.auto_accept_threshold score then
          optimizeParamsForAgents agent_a agent_b params else params
        match orch.negotiation.initiate_session agent_a_id agent_b_id params none now with
        | .error e => .error e
        | .ok (negEngine, negSession) =>
            let session := { base with
              state := .active
              negotiation_session := some negSession
              metrics := { base.metrics with negotiation_attempts := 1, success := true } }
            .ok ({ orch with
                   negotiation := negEngine
                   sessions := insertA orch.sessions sid session
                   next_id := orch.next_id + 1 }, session)
      if orch.config.require_alignment_for_negotiation then
        if aligned_count < orch.config.required_aligned_strategies then
          if pyLt score orch.config.min_alignment_confidence then
            let session := { base with
              state := .failed
              meta_failure_reason := some "Insufficient alignment" }
            .ok ({ orch with
                   sessions := insertA orch.sessions sid session
                   next_id := orch.next_id + 1 }, session)
          else proceed
        else proceed
      else proceed

/-- Irrelevant interpretation of `math.log`: the concrete runs below never
evaluate it (every IDF intersection they reach is empty). -/
def mathLogModel : ℚ → ℚ := fun q => q

/-- Agent `A` of the C1 acceptance example: knowledge domain `cooking`
only. -/
def c1AgentA : AgentContext :=
  { AgentContext.bare "A" with knowledge_domains := ["cooking"] }

/-- Agent `B` of the C1 acceptance example: knowledge domain `astronomy`
only. -/
def c1AgentB : AgentContext :=
  { AgentContext.bare "B" with knowledge_domains := ["astronomy"] }

/-- Orchestrator with `A` and `B` registered. -/
def c1Orch : Orchestrator :=
  (Orchestrator.fresh.register_agent c1AgentA).register_agent c1AgentB

/-- The full-check result on the C1 example: knowledge `misaligned` (the
required domain is missing on both sides), goals `unknown` (none declared),
terminology/assumptions/context vacuously `aligned`, and the `_summary`
entry `partial` with weighted score `0.5375`. -/
def c1Results : FullResults :=
  { knowledge := { status := .misaligned, confidence := 0 }
    goals := { status := .unknown, confidence := 0 }
    terminology := { status := .aligned, confidence := 1 }
    assumptions := { status := .aligned, confidence := 1 }
    context := { status := .aligned, confidence := 1 }
    summary := { status := .partial_, confidence := mkRat 43 80 } }

set_option maxRecDepth 100000 in
set_option maxHeartbeats 4000000 in
/-- Claim C1 counterexample: on the claimed input (A with `[cooking]`, B
with `[astronomy]`, required domain `quantum_computing`) the session does
NOT fail — three of the six full-check entries are `aligned`
(terminology, assumptions, context), so `aligned_count < 3` is false, the
gate is skipped entirely, and the session ends `active` with no
`failure_reason`. -/
theorem initiate_collaboration_example_not_failed :
    fullAlignmentCheck mathLogModel c1Orch.alignment c1AgentA c1AgentB
      (some ["quantum_computing"]) none = .ok c1Results ∧
    alignedCount c1Results = 3 ∧
    (match c1Orch.initiate_collaboration mathLogModel "A" "B"
        (some ["quantum_computing"]) none 0 with
     | .ok (_, s) => some (s.state, s.meta_failure_reason)
     | .error _ => none) = some (WorkflowState.active, none) := by
  refine ⟨rfl, by decide, by decide⟩

/-- Claim C1 amended: with `require_alignment_for_negotiation` on, the
session is terminated as `failed` with metadata failure reason
`Insufficient alignment` IF AND ONLY IF `aligned_count <
required_aligned_strategies` AND the alignment score is below
`min_alignment_confidence` — a conjunction, not a disjunction — where both
the count and the score `(aligned + 0.5*partial)/6` run over all six
full-check entries, the `_summary` included. -/
theorem initiate_collaboration_gate_iff (log : ℚ → ℚ) (orch : Orchestrator)
    (a_id b_id : String) (rd : Option (List String))
    (pp : Option NegotiableParams) (now : Int)
    (agent_a agent_b : AgentContext) (alignment_results : FullResults)
    (ha : lookupA orch.agent_registry a_id = some agent_a)
    (hb : lookupA orch.agent_registry b_id = some agent_b)
    (hres : fullAlignmentCheck log orch.alignment agent_a agent_b rd none =
      .ok alignment_results)
    (hreq : orch.config.require_alignment_for_negotiation = true) :
    (∃ orch' s, orch.initiate_collaboration log a_id b_id rd pp now =
        .ok (orch', s) ∧ s.state = WorkflowState.failed ∧
        s.meta_failure_reason = some "Insufficient alignment") ↔
    (alignedCount alignment_results < orch.config.required_aligned_strategies ∧
      alignmentScoreOf alignment_results < orch.config.min_alignment_confidence) := by
  unfold Orchestrator.initiate_collaboration
  rw [ha]
  dsimp only
  rw [hb]
  dsimp only
  rw [hres]
  dsimp only
  rw [if_pos hreq]
  by_cases h1 : alignedCount alignment_results < orch.config.required_aligned_strategies
  · rw [if_pos h1]
    by_cases h2 : alignmentScoreOf alignment_results < orch.config.min_alignment_confidence
    · rw [if_pos ((pyLt_iff _ _).mpr h2)]
      constructor
      · intro _; exact ⟨h1, h2⟩
      · intro _; exact ⟨_, _, rfl, rfl, rfl⟩
    · rw [if_neg (by rw [pyLt_iff]; exact h2)]
      constructor
      · rintro ⟨o, s, heq, hfail, -⟩
        exfalso
        cases hn : (orch.negotiation.initiate_session a_id b_id
            (if pyLe orch.config.auto_accept_threshold (alignmentScoreOf alignment_results) then
              optimizeParamsForAgents agent_a agent_b (pp.getD NegotiableParams.defaults)
            else pp.getD NegotiableParams.defaults) none now) with
        | error e => rw [hn] at heq; exact Except.noConfusion heq
        | ok p =>
          rw [hn] at heq
          obtain ⟨p1, p2⟩ := p
          injection heq with heq'
          injection heq' with heq1 heq2
          rw [← heq2] at hfail
          exact WorkflowState.noConfusion hfail
      · rintro ⟨-, h2'⟩; exact absurd h2' h2
  · rw [if_neg h1]
    constructor
    · rintro ⟨o, s, heq, hfail, -⟩
      exfalso
      cases hn : (orch.negotiation.initiate_session a_id b_id
          (if pyLe orch.config.auto_accept_threshold (alignmentScoreOf alignment_results) then
            optimizeParamsForAgents agent_a agent_b (pp.getD NegotiableParams.defaults)
          else pp.getD NegotiableParams.defaults) none now) with
      | error e => rw [hn] at heq; exact Except.noConfusion heq
      | ok p =>
        rw [hn] at heq
        obtain ⟨p1, p2⟩ := p
        injection heq with heq'
        injection heq' with heq1 heq2
        rw [← heq2] at hfail
        exact WorkflowState.noConfusion hfail
    · rintro ⟨h1', -⟩; exact absurd h1' h1

set_option maxRecDepth 100000 in
set_option maxHeartbeats 4000000 in
/-- Witness for `initiate_collaboration_gate_iff` at the concrete C1
example (where the right-hand side is false, since `aligned_count = 3`). -/
theorem initiate_collaboration_gate_iff_witness :
    lookupA c1Orch.agent_registry "A" = some c1AgentA ∧
    lookupA c1Orch.agent_registry "B" = some c1AgentB ∧
    fullAlignmentCheck mathLogModel c1Orch.alignment c1AgentA c1AgentB
      (some ["quantum_computing"]) none = .ok c1Results ∧
    c1Orch.config.require_alignment_for_negotiation = true ∧
    ((∃ orch' s, c1Orch.initiate_collaboration mathLogModel "A" "B"
        (some ["quantum_computing"]) none 0 = .ok (orch', s) ∧
        s.state = WorkflowState.failed ∧
        s.meta_failure_reason = some "Insufficient alignment") ↔
      (alignedCount c1Results < c1Orch.config.required_aligned_strategies ∧
        alignmentScoreOf c1Results < c1Orch.config.min_alignment_confidence)) :=
  ⟨by decide, by decide, rfl, by decide,
    initiate_collaboration_gate_iff mathLogModel c1Orch "A" "B"
      (some ["quantum_computing"]) none 0 c1AgentA c1AgentB c1Results
      (by decide) (by decide) rfl (by decide)⟩

/-- Goals-only agent with type `assistance`. -/
def c2AgentA : AgentContext :=
  { AgentContext.bare "A" with goals := [{ gtype := some "assistance", gdescription := none }] }

/-- Goals-only agent with type `education`. -/
def c2AgentB : AgentContext :=
  { AgentContext.bare "B" with goals := [{ gtype := some "education", gdescription := none }] }

/-- Claim C2 (refutation by evaluation of the code): the default matrix
stores `0.9` under `["assistance"]["education"]` — but `verify_goals` looks
up the composite keys `"assistance:education"`/`"education:assistance"`,
which never match the bare-name keys of the matrix, so the lookup falls
through to the `0.5` default (for `speed`/`quality` as well, where the
table stores `0.4`).  Hence the single pair is neither a conflict nor an
alignment: `alignment_ratio = 0`, status `partial`, confidence `0.0`. -/
theorem verify_goals_composite_key_misses_default_table :
    (lookupA DEFAULT_GOAL_COMPATIBILITY "assistance").map
      (fun t => lookupA t "education") = some (some (mkRat 9 10)) ∧
    goalCompatLookup DEFAULT_GOAL_COMPATIBILITY "assistance" "education" =
      .num (mkRat 5 10) ∧
    (lookupA DEFAULT_GOAL_COMPATIBILITY "speed").map
      (fun t => lookupA t "quality") = some (some (mkRat 4 10)) ∧
    goalCompatLookup DEFAULT_GOAL_COMPATIBILITY "speed" "quality" =
      .num (mkRat 5 10) ∧
    (verifyGoals AlignmentEngine.fresh c2AgentA c2AgentB).toOption.map
      (fun g => (g.result.status, g.result.confidence, g.alignment_frac,
        g.conflict_frac)) =
      some (AlignmentStatus.partial_, 0, 0, 0) := by
  refine ⟨by decide, by decide, by decide, by decide, by decide⟩

/-! ## `evolve_session_protocol` and Python tuple truthiness (claim C6) -/

/-- `bool(t)` of the `(should_rollback, reason)` tuple returned by
`should_rollback`: a Python tuple is truthy exactly when it is non-empty,
and this tuple always has two elements, so the test is `true` regardless of
the boolean inside it. -/
def pyTruthyPair (_p : Bool × Option RollbackReason) : Bool := true

/-- `XenoCommOrchestrator.evolve_session_protocol`.  The canary branch
tests `if self.emergence.should_rollback(variant_id):` — the truthiness of
the tuple — and on the rollback path calls `rollback` with its default
`MANUAL` reason. -/
def Orchestrator.evolve_session_protocol (sqrt : ℚ → ℚ) (orch : Orchestrator)
    (session_id variant_id : String) (now : Int) :
    Except String (Orchestrator × String) :=
  match lookupA orch.sessions session_id with
  | none => .error ("Session " ++ session_id ++ " not found")
  | some session =>
  match lookupA orch.emergence.variants variant_id with
  | none => .error ("Variant " ++ variant_id ++ " not found")
  | some variant =>
  match variant.status with
  | .proposed =>
      match orch.emergence.start_testing variant_id now with
      | .error e => .error e
      | .ok (em, _) => .ok ({ orch with emergence := em }, "started_testing")
  | .testing =>
      match orch.emergence.start_canary variant_id none now with
      | .error e => .error e
      | .ok (em, _) => .ok ({ orch with emergence := em }, "started_canary")
  | .canary =>
      match orch.emergence.should_rollback sqrt variant_id now with
      | .error e => .error e
      | .ok sr =>
          if pyTruthyPair sr then
            match orch.emergence.rollback variant_id RollbackReason.manual now with
            | .error e => .error e
            | .ok (em, _) => .ok ({ orch with emergence := em }, "rolled_back")
          else
            match orch.emergence.ramp_canary variant_id false now with
            | .error e => .error e
            | .ok (em, v) =>
                if v.status = VariantStatus.active then
                  .ok ({ orch with
                         emergence := em
                         sessions := insertA orch.sessions session_id
                           { session with active_variant_id := some variant_id } },
                       "ramped_canary")
                else .ok ({ orch with emergence := em }, "ramped_canary")
  | .active => .ok (orch, "already_active")
  | _ => .ok (orch, "no_action")

lemma analyzeTrend_ok (sqrt : ℚ → ℚ) (st : EmergenceEngine) (vid : String)
    (metric : String) (w : ProtocolVariant)
    (hv : lookupA st.variants vid = some w) :
    ∃ t, analyzeTrend sqrt st vid metric = .ok t := by
  unfold analyzeTrend
  rw [hv]
  dsimp only
  repeat' split
  all_goals exact ⟨_, rfl⟩

lemma shouldAutoRollback_ok (sqrt : ℚ → ℚ) (st : EmergenceEngine)
    (v : ProtocolVariant) (now : Int) (cb : CircuitBreaker)
    (w : ProtocolVariant)
    (hcb : lookupA st.circuit_breakers v.variant_id = some cb)
    (hv : lookupA st.variants v.variant_id = some w) :
    ∃ r, shouldAutoRollback sqrt st v now = .ok r := by
  obtain ⟨t, ht⟩ := analyzeTrend_ok sqrt st v.variant_id "success_rate" w hv
  unfold shouldAutoRollback
  rw [hcb, ht]
  dsimp only
  repeat' split
  all_goals exact ⟨_, rfl⟩

lemma rollback_status (st : EmergenceEngine) (vid : String)
    (reason : RollbackReason) (now : Int) (v : ProtocolVariant)
    (hv : lookupA st.variants vid = some v) :
    ∃ st' p, st.rollback vid reason now = Except.ok (st', p) ∧
      (lookupA st'.variants vid).map
        (fun w => (w.status, w.meta_rollback_reason)) =
        some (VariantStatus.rolled_back, some reason.value) := by
  unfold EmergenceEngine.rollback
  rw [hv]
  exact ⟨_, _, rfl, by rw [lookupA_insertA]; rfl⟩

/-- Claim C6: for every session and every variant in `canary` status (with
its circuit breaker present, as the engine always maintains),
`evolve_session_protocol` takes the rollback branch and leaves the variant
`rolled_back` — never ramping the canary — because the branch condition is
the truthiness of the `(bool, reason)` tuple `should_rollback` returns,
which is always true, even when the boolean inside is `False`. -/
theorem evolve_canary_always_rolls_back (sqrt : ℚ → ℚ) (orch : Orchestrator)
    (sid vid : String) (now : Int) (session : CollaborationSession)
    (variant : ProtocolVariant) (cb : CircuitBreaker)
    (hs : lookupA orch.sessions sid = some session)
    (hv : lookupA orch.emergence.variants vid = some variant)
    (hid : variant.variant_id = vid)
    (hcb : lookupA orch.emergence.circuit_breakers vid = some cb)
    (hst : variant.status = VariantStatus.canary) :
    ∃ orch', orch.evolve_session_protocol sqrt sid vid now =
        .ok (orch', "rolled_back") ∧
      (lookupA orch'.emergence.variants vid).map (fun w => w.status) =
        some VariantStatus.rolled_back := by
  obtain ⟨r, hr⟩ := shouldAutoRollback_ok sqrt orch.emergence variant now cb
    variant (by rw [hid]; exact hcb) (by rw [hid]; exact hv)
  have hsr : orch.emergence.should_rollback sqrt vid now = .ok r := by
    unfold EmergenceEngine.should_rollback
    rw [hv]
    exact hr
  obtain ⟨st', p, hrb, hstat⟩ :=
    rollback_status orch.emergence vid RollbackReason.manual now variant hv
  unfold Orchestrator.evolve_session_protocol
  rw [hs]
  dsimp only
  rw [hv]
  dsimp only
  rw [hst]
  dsimp only
  rw [hsr]
  dsimp only
  rw [if_pos (show pyTruthyPair r = true from rfl), hrb]
  dsimp only
  refine ⟨_, rfl, ?_⟩
  have h2 := congrArg (Option.map Prod.fst) hstat
  rw [Option.map_map] at h2
  exact h2

/-- A canary-status variant with an empty metrics history (so every
rollback signal is off). -/
def c6Variant : ProtocolVariant :=
  { variant_id := "variant-0"
    description := "tuning"
    changes := []
    status := .canary
    created_at := 0
    updated_at := 0
    metrics_history := []
    canary_percentage := mkRat 1 10
    adoption_count := 0
    parent_variant_id := none
    tags := []
    alignment_score := none
    negotiation_session_id := none
    rollback_count := 0
    pause_count := 0
    meta_rollback_reason := none
    meta_alignment_warning := false }

/-- An active collaboration session for the C6 witness. -/
def c6Session : CollaborationSession :=
  { session_id := "collab-0"
    agent_a_id := "A"
    agent_b_id := "B"
    state := .active
    alignment_results := none
    negotiation_session := none
    active_variant_id := none
    metrics := { alignment_attempts := 1, negotiation_attempts := 1,
                 alignment_score := 1, success := true }
    meta_failure_reason := none }

/-- Orchestrator holding that session and canary variant (fresh breaker). -/
def c6Orch : Orchestrator :=
  { Orchestrator.fresh with
      sessions := [("collab-0", c6Session)]
      emergence := { EmergenceEngine.fresh with
        variants := [("variant-0", c6Variant)]
        circuit_breakers := [("variant-0", CircuitBreaker.default)] } }

/-- Witness: on `c6Orch` the tuple's boolean is `False` (`should_rollback`
returns `(false, none)`), yet `evolve_session_protocol` still rolls the
canary variant back. -/
theorem evolve_canary_always_rolls_back_witness :
    c6Orch.emergence.should_rollback mathSqrtModel "variant-0" 0 =
      .ok (false, none) ∧
    ∃ orch', c6Orch.evolve_session_protocol mathSqrtModel "collab-0" "variant-0" 0 =
        .ok (orch', "rolled_back") ∧
      (lookupA orch'.emergence.variants "variant-0").map (fun w => w.status) =
        some VariantStatus.rolled_back :=
  ⟨rfl, evolve_canary_always_rolls_back mathSqrtModel c6Orch "collab-0"
    "variant-0" 0 c6Session c6Variant CircuitBreaker.default
    (by decide) (by decide) (by decide) (by decide) (by decide)⟩

/-! ## Workflows (`workflows.py`, claim C5)

The onboarding workflow drives the orchestrator through Python attribute
accesses; `_step_register` and `_step_alignment` read
`self.orchestrator.alignment.contexts`, an attribute the `AlignmentEngine`
class does not define.  Python attribute lookup is modelled by membership
in the engine's actual attribute-name list (instance attributes assigned in
`__init__`, class attributes, and methods). -/

/-- Every attribute an `AlignmentEngine` object has: the six instance
attributes of `__init__`, the four class-level tables, and the methods. -/
def alignmentEngineAttrNames : List String :=
  ["registered_agents", "strategy_weights", "goal_compatibility_matrix",
   "terminology_mappings", "_domain_index", "_word_document_freq",
   "DOMAIN_HIERARCHY", "DEFAULT_GOAL_COMPATIBILITY", "SYNONYMS", "ANTONYMS",
   "register_agent", "verify_knowledge", "verify_goals", "align_terminology",
   "verify_assumptions", "sync_context", "full_alignment_check",
   "set_strategy_weights", "add_goal_compatibility", "add_domain_relationship",
   "_semantic_similarity", "_tokenize", "_expand_with_synonyms",
   "_domain_similarity", "_assumptions_conflict",
   "_calculate_weighted_alignment", "_update_word_frequencies"]

/-- `hasattr(AlignmentEngine_instance, name)`. -/
def alignmentEngineHasAttr (name : String) : Bool :=
  name ∈ alignmentEngineAttrNames

/-- The message of the `AttributeError` Python raises. -/
def attrErrorMsg (name : String) : String :=
  "AttributeError: " ++ apos ++ "AlignmentEngine" ++ apos ++
    " object has no attribute " ++ apos ++ name ++ apos

/-- `getattr` on the alignment engine: succeeds exactly for the attribute
names the class actually has. -/
def pyAlignmentAttr (name : String) : Except String Unit :=
  if alignmentEngineHasAttr name then .ok () else .error (attrErrorMsg name)

/-- `WorkflowStatus` enum (workflows module). -/
inductive WorkflowStatus where
  | pending
  | running
  | paused
  | completed
  | failed
  | rolled_back
deriving DecidableEq, Repr

/-- `WorkflowStep` (timestamps and the result dict omitted — they never
influence control flow). -/
structure WorkflowStep where
  step_id : String
  name : String
  description : String
  status : WorkflowStatus
  error : Option String
deriving DecidableEq, Repr

/-- A fresh pending step. -/
def mkStep (sid n d : String) : WorkflowStep :=
  { step_id := sid, name := n, description := d, status := .pending,
    error := none }

/-- Placeholder for `steps[i]` out of range (never selected: the access is
guarded by `current_step_index >= len(steps)`). -/
def dummyStep : WorkflowStep := mkStep "unknown" "" ""

/-- `WorkflowExecution`; its `context` dict is flattened into the entries
the onboarding workflow reads and writes. -/
structure WorkflowExecution where
  execution_id : String
  workflow_name : String
  status : WorkflowStatus
  steps : List WorkflowStep
  current_step_index : Nat
  ctx_new_agent : AgentContext
  ctx_existing_agent_ids : List String
  ctx_preferred_params : Option NegotiableParams
  ctx_negotiation_sessions : List (String × String)
deriving DecidableEq, Repr

/-- The `MultiAgentOnboardingWorkflow` mutable state (`uuid.uuid4()` as the
`next_id` counter). -/
structure MultiAgentOnboardingWorkflow where
  orchestrator : Orchestrator
  executions : List (String × WorkflowExecution)
  next_id : Nat
deriving DecidableEq, Repr

/-- Store a (mutated) execution back into the executions dict. -/
def MultiAgentOnboardingWorkflow.store (wf : MultiAgentOnboardingWorkflow)
    (ex : WorkflowExecution) : MultiAgentOnboardingWorkflow :=
  { wf with executions := insertA wf.executions ex.execution_id ex }

/-- `MultiAgentOnboardingWorkflow.start`: build the five pending steps, mark
the execution running and register it. -/
def MultiAgentOnboardingWorkflow.start (wf : MultiAgentOnboardingWorkflow)
    (new_agent : AgentContext) (existing_agent_ids : List String)
    (preferred_params : Option NegotiableParams) :
    MultiAgentOnboardingWorkflow × WorkflowExecution :=
  let ex : WorkflowExecution :=
    { execution_id := "exec-" ++ toString wf.next_id
      workflow_name := "multi_agent_onboarding"
      status := .running
      steps :=
        [mkStep "register" "Register Agent"
           ("Register the new agent" ++ apos ++ "s context and capabilities"),
         mkStep "alignment" "Check Alignment"
           "Run alignment checks against existing agents",
         mkStep "negotiate" "Negotiate Parameters"
           "Negotiate communication parameters with each agent",
         mkStep "establish" "Establish Protocol"
           "Establish the agreed-upon protocol",
         mkStep "verify" "Verify Connectivity"
           "Verify the agent can communicate successfully"]
      current_step_index := 0
      ctx_new_agent := new_agent
      ctx_existing_agent_ids := existing_agent_ids
      ctx_preferred_params := preferred_params
      ctx_negotiation_sessions := [] }
  ({ wf with executions := insertA wf.executions ex.execution_id ex,
             next_id := wf.next_id + 1 }, ex)

/-- The five `_step_*` bodies, dispatched on `step.step_id` as
`execute_step` does.  `_step_register` reads `alignment.contexts[...]` and
`_step_alignment` tests `agent_id in alignment.contexts`: both attribute
reads raise (the code following such a read is unreachable and the
orchestrator state is returned unchanged there). -/
def onboardingDispatch (orch : Orchestrator) (ex : WorkflowExecution)
    (step_id : String) (now : Int) :
    Except String (Orchestrator × WorkflowExecution) :=
  if step_id = "register" then do
    _ ← pyAlignmentAttr "contexts"
    pure (orch, ex)
  else if step_id = "alignment" then
    if ex.ctx_existing_agent_ids = [] then pure (orch, ex)
    else do
      _ ← pyAlignmentAttr "contexts"
      pure (orch, ex)
  else if step_id = "negotiate" then do
    let preferred := ex.ctx_preferred_params.getD NegotiableParams.defaults
    let r ← ex.ctx_existing_agent_ids.foldlM
      (fun (acc : NegotiationEngine × List (String × String)) aid => do
        let (neg', s) ← acc.1.initiate_session ex.ctx_new_agent.agent_id aid
          preferred none now
        pure (neg', acc.2 ++ [(aid, s.session_id)]))
      (orch.negotiation, [])
    pure ({ orch with negotiation := r.1 },
      { ex with ctx_negotiation_sessions := r.2 })
  else if step_id = "establish" then do
    let r ← ex.ctx_negotiation_sessions.foldlM
      (fun (neg : NegotiationEngine) p => do
        let s ← neg.get_session p.2
        if s.state = NegotiationState.awaiting_response then do
          let (neg', _) ← neg.finalize_session p.2 s.initiator_id now
          pure neg'
        else pure neg)
      orch.negotiation
    pure ({ orch with negotiation := r }, ex)
  else if step_id = "verify" then
    pure (orch, ex)
  else .error ("Unknown step: " ++ step_id)

/-- `MultiAgentOnboardingWorkflow.execute_step`: run the current step under
try/except — on an exception the step is marked `failed` with the message
and the whole execution `failed`; on success advance, completing the
execution past the last step. -/
def MultiAgentOnboardingWorkflow.execute_step
    (wf : MultiAgentOnboardingWorkflow) (execution_id : String) (now : Int) :
    Except String (MultiAgentOnboardingWorkflow × WorkflowExecution) :=
  match lookupA wf.executions execution_id with
  | none => .error ("Execution " ++ execution_id ++ " not found")
  | some ex =>
    if ex.status ≠ .running then .error "Workflow is not running"
    else if ex.current_step_index ≥ ex.steps.length then
      let ex := { ex with status := .completed }
      .ok (wf.store ex, ex)
    else
      let step := { ex.steps.getD ex.current_step_index dummyStep with
                    status := WorkflowStatus.running }
      match onboardingDispatch wf.orchestrator ex step.step_id now with
      | .ok (orch', ex') =>
          let step := { step with status := .completed }
          let ex' := { ex' with
            steps := ex'.steps.set ex'.current_step_index step
            current_step_index := ex'.current_step_index + 1 }
          let ex' := if ex'.current_step_index ≥ ex'.steps.length then
            { ex' with status := WorkflowStatus.completed } else ex'
          .ok (({ wf with orchestrator := orch' }).store ex', ex')
      | .error e =>
          let step := { step with status := .failed, error := some e }
          let ex := { ex with
            steps := ex.steps.set ex.current_step_index step
            status := WorkflowStatus.failed }
          .ok (wf.store ex, ex)

/-- `MultiAgentOnboardingWorkflow.execute_all`: the
`while execution.status == RUNNING` loop, with explicit fuel (six
iterations complete a five-step run; the runs below stop far earlier). -/
def MultiAgentOnboardingWorkflow.execute_all
    (wf : MultiAgentOnboardingWorkflow) (execution_id : String) (now : Int) :
    Nat → Except String (MultiAgentOnboardingWorkflow × WorkflowExecution)
  | 0 =>
      match lookupA wf.executions execution_id with
      | none => .error ("Execution " ++ execution_id ++ " not found")
      | some ex => .ok (wf, ex)
  | fuel + 1 =>
      match lookupA wf.executions execution_id with
      | none => .error ("Execution " ++ execution_id ++ " not found")
      | some ex =>
          if ex.status = .running then
            match wf.execute_step execution_id now with
            | .error e => .error e
            | .ok (wf', _) => wf'.execute_all execution_id now fuel
          else .ok (wf, ex)

/-- The agent to onboard in the C5 scenario. -/
def c5NewAgent : AgentContext :=
  { AgentContext.bare "Anew" with knowledge_domains := ["python"] }

/-- Onboarding workflow over an orchestrator with agents `A` and `B`
registered. -/
def c5Flow : MultiAgentOnboardingWorkflow :=
  { orchestrator := c1Orch, executions := [], next_id := 0 }

/-- `start_onboarding_workflow("Anew", ["A", "B"])`. -/
def c5Started : MultiAgentOnboardingWorkflow × WorkflowExecution :=
  c5Flow.start c5NewAgent ["A", "B"] none

/-- The observable outcome of `execute_workflow_all_steps`: overall status
plus each step id with its status and error. -/
def c5Outcome : Option (WorkflowStatus × List (String × WorkflowStatus × Option String)) :=
  match c5Started.1.execute_all "exec-0" 0 7 with
  | .ok (_, ex) =>
      some (ex.status, ex.steps.map (fun s => (s.step_id, s.status, s.error)))
  | .error _ => none

/-- Claim C5 (refutation by evaluation of the code): executing the
onboarding workflow fails at its very first step — `_step_register`
accesses `self.orchestrator.alignment.contexts`, but the engine stores
agents in `registered_agents` and has no `contexts` attribute, so the step
raises `AttributeError`; `execute_step` marks the step and the execution
`failed`, the loop exits, and the remaining four steps stay `pending` —
nothing ever reaches `completed`. -/
theorem onboarding_register_step_attribute_error :
    alignmentEngineHasAttr "contexts" = false ∧
    c5Outcome = some (WorkflowStatus.failed,
      [("register", WorkflowStatus.failed, some (attrErrorMsg "contexts")),
       ("alignment", WorkflowStatus.pending, none),
       ("negotiate", WorkflowStatus.pending, none),
       ("establish", WorkflowStatus.pending, none),
       ("verify", WorkflowStatus.pending, none)]) :=
  ⟨by decide, by decide⟩

end XenoComm
